import Mathlib

/-!
Verification development for the Garmin activity-sync engine
(`scripts/sync_garmin.py`).

The Python module is shallowly embedded: Python values flowing through the
engine are modelled by the inductive type `PyVal`, Python exceptions by the
structure `Exc` (class name + message text), the provider client adapter by a
structure of optional methods, and the files the script reads and writes by an
explicit `World` record.  The unbounded `while True:` pagination loops are
modelled with an explicit fuel parameter; running out of fuel yields `none`
(the loops of the source have no such case, so every theorem about a finished
run is stated on a `some` result).

Python floats are modelled as exact fractions (`Frac`): the engine never
performs float arithmetic, it only parses, compares and stores durations, and
all such comparisons are exact.  Cryptographic hashes (hmac-sha256 / sha256)
are modelled by injective tag encodings; the engine only ever compares
fingerprints for equality.  Naive datetimes are interpreted in UTC (the
reference environment of the sync job).
-/

/-! ## Character/string primitives

Lean core string functions are avoided on purpose: every operation used by the
embedding is defined here by structural recursion over `List Char` so that
concrete runs reduce inside the kernel. -/

def lowerChar (c : Char) : Char :=
  if 'A' ≤ c && c ≤ 'Z' then Char.ofNat (c.toNat + 32) else c

/-- Embeds `str.lower()` (ASCII, which covers every marker the engine matches). -/
def lowerStr (s : String) : String := ⟨s.data.map lowerChar⟩

def leadsWith : List Char → List Char → Bool
  | [], _ => true
  | _ :: _, [] => false
  | a :: as, b :: bs => decide (a = b) && leadsWith as bs

/-- Python `needle in hay` on strings (substring containment). -/
def containsChars : List Char → List Char → Bool
  | _, [] => false
  | needle, b :: bs => leadsWith needle (b :: bs) || containsChars needle bs

def strContains (hay needle : String) : Bool :=
  needle.data.isEmpty || containsChars needle.data hay.data

def isSpaceChar (c : Char) : Bool :=
  c = ' ' || c = '\t' || c = '\n' || c = '\r'

def dropLeadingSpaces : List Char → List Char
  | [] => []
  | c :: cs => if isSpaceChar c then dropLeadingSpaces cs else c :: cs

/-- Python `str.strip()` (whitespace from both ends). -/
def stripStr (s : String) : String :=
  ⟨(dropLeadingSpaces (dropLeadingSpaces s.data.reverse).reverse)⟩

/-- Python `str.replace(old, new)` for single-character patterns, which is the
only form the engine uses (`.replace(" ", "T")`). -/
def replaceChar (old new : Char) (s : String) : String :=
  ⟨s.data.map fun c => if c = old then new else c⟩

def endsWithChar (c : Char) (s : String) : Bool :=
  match s.data.reverse with
  | [] => false
  | d :: _ => decide (d = c)

/-- Python `s[:-1]`. -/
def dropLast1 (s : String) : String := ⟨s.data.dropLast⟩

def splitOnCharAux (sep : Char) : List Char → List Char → List String
  | [], acc => [⟨acc.reverse⟩]
  | c :: cs, acc =>
    if c = sep then ⟨acc.reverse⟩ :: splitOnCharAux sep cs []
    else splitOnCharAux sep cs (c :: acc)

/-- Python `str.split(sep)` for a single-character separator. -/
def splitOnChar (sep : Char) (s : String) : List String :=
  splitOnCharAux sep s.data []

def digitVal (c : Char) : Option Nat :=
  if '0' ≤ c && c ≤ '9' then some (c.toNat - '0'.toNat) else none

def digitsToNat : List Char → Option Nat → Option Nat
  | [], acc => acc
  | c :: cs, acc =>
    match digitVal c, acc with
    | some d, some n => digitsToNat cs (some (n * 10 + d))
    | some d, none => digitsToNat cs (some d)
    | none, _ => none

/-- Parse a non-empty all-digit string as a natural number. -/
def parseNat (s : String) : Option Nat := digitsToNat s.data none

def digitChar (n : Nat) : Char := Char.ofNat ('0'.toNat + n % 10)

def natDigits : Nat → Nat → List Char
  | 0, _ => []
  | fuel + 1, n =>
    if n < 10 then [digitChar n]
    else natDigits fuel (n / 10) ++ [digitChar (n % 10)]

/-- Decimal rendering of a natural number (fuelled by the number itself, which
always suffices since a number has at most as many digits as its value). -/
def natStr (n : Nat) : String := ⟨natDigits (n + 1) n⟩

/-- Decimal rendering of an integer, as Python `str(int)` produces. -/
def intStr (n : Int) : String :=
  if n < 0 then "-" ++ natStr n.natAbs else natStr n.natAbs

/-- Zero-padded two-digit rendering (for ISO timestamps). -/
def pad2 (n : Nat) : String := if n < 10 then "0" ++ natStr n else natStr n

def pad4 (n : Nat) : String :=
  if n < 10 then "000" ++ natStr n
  else if n < 100 then "00" ++ natStr n
  else if n < 1000 then "0" ++ natStr n
  else natStr n

def insertSorted (s : String) : List String → List String
  | [] => [s]
  | t :: ts => if s ≤ t then s :: t :: ts else t :: insertSorted s ts

/-- Python `sorted` on a list of strings. -/
def sortStrings : List String → List String
  | [] => []
  | s :: ss => insertSorted s (sortStrings ss)

/-- Set-like insertion (Python `set.add`): keep the list duplicate-free. -/
def insertId (s : String) (l : List String) : List String :=
  if l.contains s then l else l ++ [s]

/-! ## Python values -/

/-- An exact fraction standing in for a Python float.  The engine never does
float arithmetic: floats are parsed, compared and stored, and every comparison
it makes is exact on the values that occur, so fractions are a faithful model.
The denominator is positive for every fraction the embedding constructs. -/
structure Frac where
  num : Int
  den : Nat
deriving DecidableEq, Repr

def Frac.ofInt (n : Int) : Frac := ⟨n, 1⟩

def Frac.isPos (a : Frac) : Bool := 0 < a.num

def Frac.eqb (a b : Frac) : Bool := a.num * (b.den : Int) == b.num * (a.den : Int)

/-- Python `int(float)`: truncation toward zero. -/
def Frac.trunc (a : Frac) : Int := Int.tdiv a.num (a.den : Int)

/-- A Python value as the sync engine sees it (JSON-shaped data plus booleans
and `None`).  Dictionaries are association lists with unique keys, matching
the Python dict invariant. -/
inductive PyVal where
  | pynone
  | pybool (b : Bool)
  | pyint (n : Int)
  | pyfloat (q : Frac)
  | pystr (s : String)
  | pylist (xs : List PyVal)
  | pydict (fs : List (String × PyVal))

abbrev Pyd := List (String × PyVal)

def pyLookup (k : String) : Pyd → Option PyVal
  | [] => none
  | (k2, v) :: rest => if k = k2 then some v else pyLookup k rest

/-- Python `dict.get(k)` (missing keys give `None`). -/
def pyGet (d : Pyd) (k : String) : PyVal := (pyLookup k d).getD .pynone

/-- Python `dict.get(k, default)`. -/
def pyGetD (d : Pyd) (k : String) (default : PyVal) : PyVal :=
  (pyLookup k d).getD default

/-- Numeric view shared by Python `bool`, `int` and `float` for `==`. -/
def pyNumView : PyVal → Option Frac
  | .pybool b => some (Frac.ofInt (if b then 1 else 0))
  | .pyint n => some (Frac.ofInt n)
  | .pyfloat q => some q
  | _ => none

mutual
def pyEq : PyVal → PyVal → Bool
  | .pynone, .pynone => true
  | .pynone, _ => false
  | _, .pynone => false
  | .pystr a, .pystr b => a == b
  | .pylist a, .pylist b => pyEqList a b
  | .pydict a, .pydict b => a.length == b.length && pyDictLe a b
  | a, b =>
    match pyNumView a, pyNumView b with
    | some x, some y => x.eqb y
    | _, _ => false

def pyEqList : List PyVal → List PyVal → Bool
  | [], [] => true
  | x :: xs, y :: ys => pyEq x y && pyEqList xs ys
  | _, _ => false

def pyDictLe : Pyd → Pyd → Bool
  | [], _ => true
  | (k, v) :: fs, b =>
    (match pyLookup k b with
     | some w => pyEq v w
     | none => false) && pyDictLe fs b
end

/-- Python truthiness. -/
def pyTruthy : PyVal → Bool
  | .pynone => false
  | .pybool b => b
  | .pyint n => n != 0
  | .pyfloat q => q.num != 0
  | .pystr s => !s.data.isEmpty
  | .pylist xs => !xs.isEmpty
  | .pydict fs => !fs.isEmpty

/-- Rendering of the float model, standing in for Python `repr(float)`; only
its injectivity and non-emptiness matter to the engine (it is used for
`str()` of values that are in practice strings or ints). -/
def fracStr (q : Frac) : String := intStr q.num ++ "." ++ natStr q.den

mutual
/-- Python `str(value)`. -/
def pyStr : PyVal → String
  | .pynone => "None"
  | .pybool b => if b then "True" else "False"
  | .pyint n => intStr n
  | .pyfloat q => fracStr q
  | .pystr s => s
  | .pylist xs => "[" ++ pyStrList xs ++ "]"
  | .pydict fs => "\x7b" ++ pyStrFields fs ++ "\x7d"

def pyStrList : List PyVal → String
  | [] => ""
  | [x] => pyStr x
  | x :: xs => pyStr x ++ ", " ++ pyStrList xs

def pyStrFields : Pyd → String
  | [] => ""
  | [(k, v)] => k ++ ": " ++ pyStr v
  | (k, v) :: fs => k ++ ": " ++ pyStr v ++ ", " ++ pyStrFields fs
end

/-- Python `int(value)`: `none` models the `TypeError`/`ValueError` raise. -/
def pyToInt : PyVal → Option Int
  | .pybool b => some (if b then 1 else 0)
  | .pyint n => some n
  | .pyfloat q => some q.trunc
  | .pystr s =>
    match (stripStr s).data with
    | '-' :: rest => (digitsToNat rest none).map fun n => -(n : Int)
    | ds => (digitsToNat ds none).map fun n => (n : Int)
  | _ => none

/-- Parse of a decimal literal (`"12"`, `"-3.5"`); stands in for Python
`float(str)` (exponent and special forms do not occur in the data). -/
def parseFrac (s : String) : Option Frac :=
  let core : List Char → Option Frac := fun ds =>
    match splitOnCharAux '.' ds [] with
    | [w] => (digitsToNat w.data none).map fun n => Frac.ofInt (n : Int)
    | [w, f] =>
      match digitsToNat w.data none, digitsToNat f.data none with
      | some wn, some fn =>
        let den : Nat := 10 ^ f.data.length
        some ⟨(wn : Int) * (den : Int) + (fn : Int), den⟩
      | _, _ => none
    | _ => none
  match (stripStr s).data with
  | '-' :: rest => (core rest).map fun q => ⟨-q.num, q.den⟩
  | ds => core ds

/-- Python `float(value)`: `none` models the raise. -/
def pyToFloat : PyVal → Option Frac
  | .pybool b => some (Frac.ofInt (if b then 1 else 0))
  | .pyint n => some (Frac.ofInt n)
  | .pyfloat q => some q
  | .pystr s => parseFrac s
  | _ => none

/-! ## Calendar and ISO timestamps

The engine turns ISO date/time strings into epoch seconds via
`datetime.fromisoformat(...).timestamp()` and parses the configured lower
bound with `strptime("%Y-%m-%d")`.  Naive datetimes are interpreted in UTC
(the timezone of the sync environment); aware offsets are honoured. -/

def isLeap (y : Int) : Bool :=
  (Int.emod y 4 == 0 && Int.emod y 100 != 0) || Int.emod y 400 == 0

def daysInMonth (y m : Int) : Int :=
  if m == 2 then (if isLeap y then 29 else 28)
  else if m == 4 || m == 6 || m == 9 || m == 11 then 30
  else 31

/-- Days from 1970-01-01 to the given civil date (proleptic Gregorian). -/
def daysFromCivil (y m d : Int) : Int :=
  let y2 : Int := if m ≤ 2 then y - 1 else y
  let era : Int := Int.tdiv (if 0 ≤ y2 then y2 else y2 - 399) 400
  let yoe : Int := y2 - era * 400
  let mp : Int := if 2 < m then m - 3 else m + 9
  let doy : Int := Int.tdiv (153 * mp + 2) 5 + d - 1
  let doe : Int := yoe * 365 + Int.tdiv yoe 4 - Int.tdiv yoe 100 + doy
  era * 146097 + doe - 719468

/-- A civil UTC datetime. -/
structure Civil where
  year : Int
  month : Int
  day : Int
  hour : Int
  minute : Int
  second : Int
deriving DecidableEq, Repr

def validCivil (c : Civil) : Bool :=
  1 ≤ c.month && c.month ≤ 12 && 1 ≤ c.day && c.day ≤ daysInMonth c.year c.month &&
  0 ≤ c.hour && c.hour < 24 && 0 ≤ c.minute && c.minute < 60 &&
  0 ≤ c.second && c.second < 60

def civilToEpoch (c : Civil) : Int :=
  daysFromCivil c.year c.month c.day * 86400 +
    c.hour * 3600 + c.minute * 60 + c.second

def parseFixedNat (width : Nat) (s : String) : Option Nat :=
  if s.data.length == width then digitsToNat s.data none else none

/-- Parses `"YYYY-MM-DD"` to a civil date (midnight), validating the calendar as
`fromisoformat`/`strptime` do. -/
def parseDateYMD (s : String) : Option Civil :=
  match splitOnChar '-' s with
  | [ys, ms, ds] =>
    match parseFixedNat 4 ys, parseFixedNat 2 ms, parseFixedNat 2 ds with
    | some y, some m, some d =>
      let c : Civil := ⟨(y : Int), (m : Int), (d : Int), 0, 0, 0⟩
      if validCivil c then some c else none
    | _, _, _ => none
  | _ => none

/-- Parses `"HH:MM[:SS[.ffffff]]"` to seconds past midnight (fractional seconds are
ignored; the epoch result is truncated to whole seconds as `int()` does on
the timestamps that occur). -/
def parseTimeOfDay (s : String) : Option Int :=
  let fields := splitOnChar ':' s
  let parseSec : String → Option Nat := fun t =>
    match splitOnChar '.' t with
    | [w] => parseFixedNat 2 w
    | [w, f] => if f.data.all (fun c => (digitVal c).isSome) && !f.data.isEmpty
        then parseFixedNat 2 w else none
    | _ => none
  let mk : Nat → Nat → Nat → Option Int := fun h m sec =>
    if h < 24 && m < 60 && sec < 60 then some ((h : Int) * 3600 + m * 60 + sec)
    else none
  match fields with
  | [hs, ms] =>
    match parseFixedNat 2 hs, parseFixedNat 2 ms with
    | some h, some m => mk h m 0
    | _, _ => none
  | [hs, ms, ss] =>
    match parseFixedNat 2 hs, parseFixedNat 2 ms, parseSec ss with
    | some h, some m, some sec => mk h m sec
    | _, _, _ => none
  | _ => none

/-- Parses `"±HH:MM"` to signed offset seconds. -/
def parseTzOffset (sign : Int) (s : String) : Option Int :=
  match splitOnChar ':' s with
  | [hs, ms] =>
    match parseFixedNat 2 hs, parseFixedNat 2 ms with
    | some h, some m => some (sign * ((h : Int) * 3600 + m * 60))
    | _, _ => none
  | _ => none

/-- Computes `datetime.fromisoformat(s).timestamp()` truncated to an `Int` (the engine
applies `int(...)` to the result); `none` models the `ValueError` raise. -/
def parseIsoTimestamp (s : String) : Option Int :=
  match splitOnChar 'T' s with
  | [d] => (parseDateYMD d).map civilToEpoch
  | [d, t] =>
    match parseDateYMD d with
    | none => none
    | some c =>
      let withOffset : String → Option Int → Option Int := fun tm off =>
        match parseTimeOfDay tm, off with
        | some secs, some o => some (civilToEpoch c + secs - o)
        | _, _ => none
      match splitOnChar '+' t with
      | [_] =>
        -- no '+': a '-' inside the time part can only start a negative offset
        (match splitOnChar '-' t with
         | [tm] => (parseTimeOfDay tm).map fun secs => civilToEpoch c + secs
         | [tm, o] => withOffset tm (parseTzOffset (-1) o)
         | _ => none)
      | [tm, o] => withOffset tm (parseTzOffset 1 o)
      | _ => none
  | _ => none

/-- Renders `datetime.isoformat()` for an aware UTC datetime. -/
def isoFromCivil (c : Civil) : String :=
  pad4 c.year.natAbs ++ "-" ++ pad2 c.month.natAbs ++ "-" ++ pad2 c.day.natAbs ++
    "T" ++ pad2 c.hour.natAbs ++ ":" ++ pad2 c.minute.natAbs ++ ":" ++
    pad2 c.second.natAbs ++ "+00:00"

/-- The ambient clock: `utc_now()` of the run. -/
structure Env where
  now : Civil
deriving DecidableEq, Repr

def Env.nowTs (e : Env) : Int := civilToEpoch e.now

def Env.nowIso (e : Env) : String := isoFromCivil e.now

/-! ## Exceptions and the provider client adapter -/

/-- A Python exception as the engine inspects it: `name` models
`exc.__class__.__name__` and `text` models `str(exc)`. -/
structure Exc where
  name : String
  text : String
deriving DecidableEq, Repr

/-- Embeds `_is_rate_limited_error` (sync_garmin.py:557-560). -/
def is_rate_limited_error (exc : Exc) : Bool :=
  let name := lowerStr exc.name
  let text := lowerStr exc.text
  strContains name "toomanyrequests" || strContains text "429" ||
    strContains text "rate limit"

/-- The provider client adapter (the object `_load_garmin_client` returns;
authentication is an external concern, see spec section 1).  Each field models
`getattr(client, name)`: `none` when the method does not exist.  Methods are
pure: the provider is assumed stable within one run. -/
structure Client where
  get_activities : Option (Int → Int → Except Exc PyVal)
  getActivities : Option (Int → Int → Except Exc PyVal)
  get_activity : Option (String → Except Exc PyVal)
  getActivity : Option (String → Except Exc PyVal)
  get_activity_details : Option (String → Except Exc PyVal)
  getActivityDetails : Option (String → Except Exc PyVal)

/-- One issued listing request: method name, start, limit. -/
abbrev FetchCall := String × Int × Int

/-- One issued detail request: method name, activity id. -/
abbrev DetailCall := String × String

def joinSemicolon : List String → String
  | [] => ""
  | [s] => s
  | s :: rest => s ++ "; " ++ joinSemicolon rest

def onlyDicts (items : List PyVal) : List Pyd :=
  items.filterMap fun
    | .pydict d => some d
    | _ => none

def fetchPageGo (start limit : Int) :
    List (String × Option (Int → Int → Except Exc PyVal)) → List String →
    List FetchCall → Except Exc (List Pyd) × List FetchCall
  | [], errors, log =>
    let detail :=
      if errors.isEmpty then "no supported activities API method found"
      else joinSemicolon errors
    (.error ⟨"RuntimeError", "Unable to fetch Garmin activities (" ++ detail ++ ")."⟩,
      log)
  | (_, none) :: rest, errors, log => fetchPageGo start limit rest errors log
  | (nm, some m) :: rest, errors, log =>
    let log := log ++ [(nm, start, limit)]
    match m start limit with
    | .error exc =>
      fetchPageGo start limit rest (errors ++ [nm ++ ": " ++ exc.text]) log
    | .ok payload =>
      match payload with
      | .pylist items => (.ok (onlyDicts items), log)
      | .pydict fs =>
        (match pyLookup "activities" fs with
         | some (.pylist items) => (.ok (onlyDicts items), log)
         | _ => (.ok [], log))
      | _ => (.ok [], log)

/-- Embeds `_fetch_page` (sync_garmin.py:530-554), instrumented with the list of
listing requests it issued. -/
def fetch_page (c : Client) (start limit : Int) :
    Except Exc (List Pyd) × List FetchCall :=
  fetchPageGo start limit
    [("get_activities", c.get_activities), ("getActivities", c.getActivities)] [] []

/-! ## Normalization -/

/-- Embeds `_safe_float` (sync_garmin.py:40-44) with the default `0.0` the engine
always uses. -/
def safe_float (v : PyVal) : Frac := (pyToFloat v).getD (Frac.ofInt 0)

/-- Embeds `_safe_int` (sync_garmin.py:47-51). -/
def safe_int (v : PyVal) : Option Int := pyToInt v

/-- Python `value in (None, "", [])`, the skip test of `_coalesce`. -/
def isSkippedValue (v : PyVal) : Bool :=
  pyEq v .pynone || pyEq v (.pystr "") || pyEq v (.pylist [])

/-- Embeds `_coalesce` (sync_garmin.py:54-58). -/
def coalesce : List PyVal → PyVal
  | [] => .pynone
  | v :: rest => if isSkippedValue v then coalesce rest else v

def getNestedGo : PyVal → List String → PyVal
  | v, [] => v
  | .pydict d, k :: ks => getNestedGo (pyGet d k) ks
  | _, _ :: _ => .pynone

/-- Embeds `_get_nested` (sync_garmin.py:94-100). -/
def get_nested (payload : Pyd) (keys : List String) : PyVal :=
  getNestedGo (.pydict payload) keys

/-- Embeds `_duration_candidates` (sync_garmin.py:61-74). -/
def duration_candidates (payload : Pyd) : List PyVal :=
  [pyGet payload "movingDuration",
   pyGet payload "duration",
   pyGet payload "elapsedDuration",
   pyGet payload "moving_time",
   pyGet payload "elapsed_time",
   get_nested payload ["summaryDTO", "movingDuration"],
   get_nested payload ["summaryDTO", "duration"],
   get_nested payload ["summaryDTO", "elapsedDuration"],
   get_nested payload ["activitySummary", "movingDuration"],
   get_nested payload ["activitySummary", "duration"],
   get_nested payload ["activitySummary", "elapsedDuration"]]

def pickDurationGo : List PyVal → Option Frac → Frac
  | [], some q => q
  | [], none => Frac.ofInt 0
  | v :: rest, acc =>
    if isSkippedValue v then pickDurationGo rest acc
    else
      match pyToFloat v with
      | none => pickDurationGo rest acc
      | some q =>
        if q.isPos then q
        else pickDurationGo rest (if acc.isSome then acc else some q)

/-- Embeds `_pick_duration_seconds` (sync_garmin.py:77-91). -/
def pick_duration_seconds (vs : List PyVal) : Frac := pickDurationGo vs none

/-- Embeds `_activity_type_key` (sync_garmin.py:103-112). -/
def activity_type_key (activity : Pyd) : String :=
  pyStr (coalesce
    [get_nested activity ["activityType", "typeKey"],
     get_nested activity ["activityTypeDTO", "typeKey"],
     get_nested activity ["activityType", "type"],
     pyGet activity "type",
     pyGet activity "activityType",
     .pystr "Unknown"])

/-- Python `str(x or "")`. -/
def strOrEmpty (v : PyVal) : String :=
  pyStr (if pyTruthy v then v else .pystr "")

/-- Embeds `_normalize_activity` (sync_garmin.py:115-168).  The empty dict `[]`
models the `{}` returned for a payload without a usable id or start time. -/
def normalize_activity (activity : Pyd) : Pyd :=
  let activity_id := coalesce [pyGet activity "activityId", pyGet activity "id"]
  if pyEq activity_id .pynone then [] else
  let start_local := coalesce
    [pyGet activity "startTimeLocal", pyGet activity "startTimeGMT",
     pyGet activity "startTimeGmt", pyGet activity "startDate"]
  if !pyTruthy start_local then [] else
  let start_local_str := replaceChar ' ' 'T' (pyStr start_local)
  let type_key := activity_type_key activity
  let moving_time := pick_duration_seconds (duration_candidates activity)
  let elevation_gain := coalesce
    [pyGet activity "elevationGain", pyGet activity "totalElevationGain",
     pyGet activity "total_elevation_gain"]
  let distance := coalesce
    [pyGet activity "distance", pyGet activity "totalDistance",
     .pyfloat (Frac.ofInt 0)]
  let activity_name := stripStr (strOrEmpty (coalesce
    [pyGet activity "activityName", pyGet activity "activity_name",
     pyGet activity "name", get_nested activity ["summaryDTO", "activityName"]]))
  let start_date := replaceChar ' ' 'T' (pyStr (coalesce
    [pyGet activity "startTimeGMT", pyGet activity "startTimeGmt",
     pyGet activity "startTimeLocal", .pystr start_local_str]))
  let normalized : Pyd :=
    [("id", .pystr (pyStr activity_id)),
     ("start_date_local", .pystr start_local_str),
     ("start_date", .pystr start_date),
     ("type", .pystr type_key),
     ("sport_type", .pystr type_key),
     ("distance", .pyfloat (safe_float distance)),
     ("moving_time", .pyfloat (safe_float (.pyfloat moving_time))),
     ("total_elevation_gain", .pyfloat (safe_float elevation_gain)),
     ("provider", .pystr "garmin")]
  if activity_name == "" then normalized
  else normalized ++ [("name", .pystr activity_name)]

/-- Embeds `_activity_start_ts` (sync_garmin.py:214-224). -/
def activity_start_ts (activity : Pyd) : Option Int :=
  let v1 := pyGet activity "start_date"
  let value := if pyTruthy v1 then v1 else pyGet activity "start_date_local"
  if !pyTruthy value then none else
  let value_str := pyStr value
  let value_str :=
    if endsWithChar 'Z' value_str then dropLast1 value_str ++ "+00:00"
    else value_str
  parseIsoTimestamp value_str

/-! ## Duration enrichment -/

def fetchDurationGo (activity_id : String) :
    List (String × Option (String → Except Exc PyVal)) → List DetailCall →
    Option Frac × List DetailCall
  | [], log => (none, log)
  | (_, none) :: rest, log => fetchDurationGo activity_id rest log
  | (nm, some m) :: rest, log =>
    let log := log ++ [(nm, activity_id)]
    match m activity_id with
    | .error _ => fetchDurationGo activity_id rest log
    | .ok payload =>
      match payload with
      | .pydict d =>
        let value := pick_duration_seconds (duration_candidates d)
        if value.isPos then (some value, log)
        else fetchDurationGo activity_id rest log
      | _ => fetchDurationGo activity_id rest log

/-- Embeds `_fetch_activity_duration_from_summary` (sync_garmin.py:171-191),
instrumented with the detail requests it issued. -/
def fetch_activity_duration_from_summary (c : Client) (activity_id : String) :
    Option Frac × List DetailCall :=
  fetchDurationGo activity_id
    [("get_activity", c.get_activity), ("getActivity", c.getActivity),
     ("get_activity_details", c.get_activity_details),
     ("getActivityDetails", c.getActivityDetails)] []

def assocLookup {α : Type} (k : String) : List (String × α) → Option α
  | [] => none
  | (k2, v) :: rest => if k = k2 then some v else assocLookup k rest

def assocSet {α : Type} (k : String) (v : α) : List (String × α) → List (String × α)
  | [] => [(k, v)]
  | (k2, w) :: rest => if k = k2 then (k, v) :: rest else (k2, w) :: assocSet k v rest

/-- Embeds `_enrich_missing_duration` (sync_garmin.py:194-211).  The stats dict is the
`duration_enriched` counter (the engine always passes one); the third component
is the list of detail requests issued. -/
def enrich_missing_duration (c : Client) (normalized : Pyd) (stats : Nat) :
    Pyd × Nat × List DetailCall :=
  if (safe_float (pyGet normalized "moving_time")).isPos then (normalized, stats, [])
  else
    let activity_id := stripStr (strOrEmpty (pyGet normalized "id"))
    if activity_id == "" then (normalized, stats, [])
    else
      match fetch_activity_duration_from_summary c activity_id with
      | (none, log) => (normalized, stats, log)
      | (some resolved, log) =>
        if resolved.num ≤ 0 then (normalized, stats, log)
        else (assocSet "moving_time" (.pyfloat resolved) normalized, stats + 1, log)

/-! ## Configuration: bounds and activity scope -/

/-- Python `config.get(key, {})` followed by attribute access on the result:
`none` models the `AttributeError` crash on a non-dict value. -/
def getSectionPlain (config : Pyd) (k : String) : Option Pyd :=
  match pyGetD config k (.pydict []) with
  | .pydict d => some d
  | _ => none

/-- Python `config.get(key, {}) or {}`: a falsy non-dict degrades to `{}`, a
truthy non-dict still crashes on attribute access (`none`). -/
def getSectionOr (config : Pyd) (k : String) : Option Pyd :=
  let v := pyGetD config k (.pydict [])
  if !pyTruthy v then some []
  else match v with
    | .pydict d => some d
    | _ => none

/-- Embeds `_lookback_after_ts` (sync_garmin.py:227-233): `now.replace(year=...)`
raises only for Feb 29 mapped to a non-leap year, in which case the code
falls back to Feb 28. -/
def lookback_after_ts (env : Env) (years : Int) : Int :=
  let now := env.now
  let shifted : Civil := { now with year := now.year - years }
  let start := if validCivil shifted then shifted
    else { now with month := 2, day := 28, year := now.year - years }
  civilToEpoch start

/-- Embeds `_start_after_ts` (sync_garmin.py:236-245); `none` models a raise
(attribute error on a bad section, `strptime` failure, bad `int(...)`). -/
def start_after_ts (config : Pyd) (env : Env) : Option Int :=
  match getSectionPlain config "sync" with
  | none => none
  | some syncCfg =>
    let start_date := pyGet syncCfg "start_date"
    if pyTruthy start_date then
      match start_date with
      | .pystr s => (parseDateYMD s).map civilToEpoch
      | _ => none
    else
      let lookback_years := pyGet syncCfg "lookback_years"
      if pyEq lookback_years .pynone || pyEq lookback_years (.pystr "") then some 0
      else (pyToInt lookback_years).map fun y => lookback_after_ts env y

/-- Python iteration over a value (`for item in v`): lists yield elements,
strings yield characters, dicts yield keys; `none` models the `TypeError` on
non-iterables. -/
def pyIterate : PyVal → Option (List PyVal)
  | .pylist xs => some xs
  | .pystr s => some (s.data.map fun ch => .pystr ⟨[ch]⟩)
  | .pydict fs => some (fs.map fun kv => .pystr kv.1)
  | _ => none

/-- Computes `sorted` of the `str(item)` set of `xs`. -/
def sortedStrSet (xs : List PyVal) : List String :=
  sortStrings ((xs.map pyStr).foldl (fun acc subject => insertId subject acc) [])

/-- Modelled from the spec: `featured_types_from_config` lives in
`activity_types.py`, which is not among the sources.  Per the spec the scope
records "the active type-filter configuration", so the featured types are
taken to be the configured featured-type entries of the activities section. -/
def featured_types_from_config (activities_cfg : Pyd) : List PyVal :=
  match pyGetD activities_cfg "featured_types" (.pylist []) with
  | .pylist xs => xs
  | _ => []

def insByKey : String × PyVal → Pyd → Pyd
  | kv, [] => [kv]
  | kv, kw :: rest =>
    if kv.1 ≤ kw.1 then kv :: kw :: rest else kw :: insByKey kv rest

def sortByKey (fs : Pyd) : Pyd := fs.foldr insByKey []

/-- A `{str(k): str(v) for ...}` comprehension over `cfg.get(key, {}) or {}`
(`none` models the crash on a truthy non-dict). -/
def strAliasMap (activities_cfg : Pyd) (k : String) : Option Pyd :=
  (getSectionOr activities_cfg k).map fun fs =>
    fs.map fun kv => (kv.1, PyVal.pystr (pyStr kv.2))

/-- Embeds `_activity_scope` (sync_garmin.py:248-277); `none` models a raise on a
malformed configuration. -/
def activity_scope (config : Pyd) : Option Pyd :=
  match getSectionOr config "activities" with
  | none => none
  | some activities_cfg =>
    let include_all_types := pyTruthy (pyGetD activities_cfg "include_all_types" (.pybool true))
    let excludeRaw := pyGetD activities_cfg "exclude_types" (.pylist [])
    let excludeItems := if !pyTruthy excludeRaw then some [] else pyIterate excludeRaw
    match excludeItems with
    | none => none
    | some items =>
      let exclude_types := sortedStrSet items
      let scope : Pyd :=
        [("include_all_types", .pybool include_all_types),
         ("exclude_types", .pylist (exclude_types.map .pystr))]
      if include_all_types then some scope
      else
        let featured_types := sortedStrSet (featured_types_from_config activities_cfg)
        match strAliasMap activities_cfg "type_aliases",
            strAliasMap activities_cfg "group_aliases" with
        | some type_aliases, some group_aliases =>
          some (scope ++
            [("featured_types", .pylist (featured_types.map .pystr)),
             ("group_other_types",
              .pybool (pyTruthy (pyGetD activities_cfg "group_other_types" (.pybool true)))),
             ("other_bucket",
              .pystr (pyStr (pyGetD activities_cfg "other_bucket" (.pystr "OtherSports")))),
             ("type_aliases", .pydict (sortByKey type_aliases)),
             ("group_aliases", .pydict (sortByKey group_aliases))])
        | _, _ => none

/-! ## Persisted files and the account-identity guard -/

/-- The raw store (`data/raw/garmin/<id>.json`): id ↦ parsed record. -/
abbrev RawStore := List (String × Pyd)

/-- The files the engine reads and writes.  `derivedExists` stands for the
five derived artifacts `_has_existing_data` probes and `_reset_persisted_data`
removes (they are created and consumed outside `sync_garmin`). -/
structure World where
  rawStore : RawStore
  backfillState : Option PyVal
  athleteFile : Option PyVal
  derivedExists : Bool

/-- Embeds `_load_state` (sync_garmin.py:280-287): missing, unreadable or non-dict
state degrades to `{}`. -/
def load_state (w : World) : Pyd :=
  match w.backfillState with
  | some (.pydict d) => d
  | _ => []

/-- Embeds `_load_account_fingerprint` (sync_garmin.py:295-305). -/
def load_account_fingerprint (w : World) : Option String :=
  match w.athleteFile with
  | some (.pydict d) =>
    match pyLookup "fingerprint" d with
    | some (.pystr s) => if s == "" then none else some s
    | _ => none
  | _ => none

/-- The payload `_write_account_fingerprint` (sync_garmin.py:308-317) stores. -/
def fingerprint_payload (fingerprint : String) (env : Env) : PyVal :=
  .pydict [("fingerprint", .pystr fingerprint),
           ("updated_utc", .pystr env.nowIso),
           ("version", .pyint 1)]

/-- Stand-in for `hmac.new(secret, email, sha256).hexdigest()`: an injective
encoding (the engine only compares fingerprints for equality). -/
def hmacSha256 (secret email : String) : String :=
  "hmac-sha256:" ++ natStr secret.data.length ++ ":" ++ secret ++ ":" ++ email

/-- Stand-in for `hashlib.sha256(token).hexdigest()`, likewise injective. -/
def sha256Hex (token : String) : String := "sha256:" ++ token

/-- Embeds `_account_fingerprint` (sync_garmin.py:320-338); the outer `none` models
the crash on a truthy non-dict `garmin` section, the inner `Option` is the
function's own `None` (no identity material). -/
def account_fingerprint (config : Pyd) : Option (Option String) :=
  match getSectionOr config "garmin" with
  | none => none
  | some garmin_cfg =>
    let email := lowerStr (stripStr (strOrEmpty (pyGet garmin_cfg "email")))
    let password := strOrEmpty (pyGet garmin_cfg "password")
    let token_store_b64 := strOrEmpty (pyGet garmin_cfg "token_store_b64")
    if email != "" then
      let secret := if password != "" then password else token_store_b64
      if secret == "" then some none
      else some (some (hmacSha256 secret email))
    else if token_store_b64 != "" then some (some (sha256Hex token_store_b64))
    else some none

/-- Embeds `_has_existing_data` (sync_garmin.py:341-349). -/
def has_existing_data (w : World) : Bool := w.derivedExists

/-- Embeds `_reset_persisted_data` (sync_garmin.py:352-364): removes the derived
artifacts and the raw activity dir (not the cursor or fingerprint files). -/
def reset_persisted_data (w : World) : World :=
  { w with rawStore := [], derivedExists := false }

/-- Embeds `_maybe_reset_for_new_account` (sync_garmin.py:367-380); `none` models a
raise while computing the fingerprint. -/
def maybe_reset_for_new_account (config : Pyd) (env : Env) (w : World) :
    Option World :=
  match account_fingerprint config with
  | none => none
  | some none => some w
  | some (some fingerprint) =>
    let stored := load_account_fingerprint w
    if stored == some fingerprint then some w
    else
      let w1 :=
        if stored.isSome then reset_persisted_data w
        else if has_existing_data w then reset_persisted_data w
        else w
      some { w1 with athleteFile := some (fingerprint_payload fingerprint env) }

/-! ## The raw-store writer -/

/-- Embeds `_write_activity` (sync_garmin.py:563-581): returns the updated store and
whether a write happened (`new_or_updated` counts the `true` results). -/
def write_activity (activity : Pyd) (store : RawStore) : RawStore × Bool :=
  let activity_id := stripStr (strOrEmpty (pyGet activity "id"))
  if activity_id == "" then (store, false)
  else if activity_id == "." || activity_id == ".." then (store, false)
  else if strContains activity_id "/" || strContains activity_id "\\" ||
      strContains activity_id ".." then (store, false)
  else
    match assocLookup activity_id store with
    | some existing =>
      if pyEq (.pydict existing) (.pydict activity) then (store, false)
      else (assocSet activity_id activity store, true)
    | none => (assocSet activity_id activity store, true)

/-! ## The pagination loops -/

/-- The mutable state of a pagination pass (recent window or backfill):
`offset`/`nextOffset` are the cursor variables, the counters and id set feed
the summary, and the store / enrichment counter / request logs are threaded
through explicitly. -/
structure BfState where
  offset : Int
  nextOffset : Int
  total : Nat
  newOrUpdated : Nat
  fetchedIds : List String
  minTs : Option Int
  maxTs : Option Int
  store : RawStore
  enrich : Nat
  log : List FetchCall
  dlog : List DetailCall

/-- Result of a pagination pass: final state plus the loop's exit flags. -/
structure BfOut where
  st : BfState
  exhausted : Bool
  rateLimited : Bool
  msg : String

def minOpt (acc : Option Int) (t : Int) : Option Int :=
  some (match acc with | none => t | some a => min a t)

def maxOpt (acc : Option Int) (t : Int) : Option Int :=
  some (match acc with | none => t | some a => max a t)

def writeStep (dry_run : Bool) (activity : Pyd) (st : BfState) : BfState :=
  if dry_run then st
  else
    match write_activity activity st.store with
    | (store2, wrote) =>
      { st with
          store := store2,
          newOrUpdated := st.newOrUpdated + (if wrote then 1 else 0) }

/-- The shared per-item body of the two page loops (sync_garmin.py:625-640 and
717-732; the two differ only in the order of independent statements): skip
unusable payloads, enrich, detect the lower-bound boundary without stopping
the scan, count, and upsert. -/
def process_item (c : Client) (after : Int) (dry_run : Bool)
    (stb : BfState × Bool) (raw : Pyd) : BfState × Bool :=
  let (st, boundary) := stb
  let activity0 := normalize_activity raw
  if activity0.isEmpty then (st, boundary)
  else
    match enrich_missing_duration c activity0 st.enrich with
    | (activity, enrich2, dl) =>
      let st1 := { st with enrich := enrich2, dlog := st.dlog ++ dl }
      match activity_start_ts activity with
      | some t =>
        if t < after then (st1, true)
        else
          let st2 := { st1 with
            total := st1.total + 1,
            fetchedIds := insertId (pyStr (pyGet activity "id")) st1.fetchedIds,
            minTs := minOpt st1.minTs t, maxTs := maxOpt st1.maxTs t }
          (writeStep dry_run activity st2, boundary)
      | none =>
        let st2 := { st1 with
          total := st1.total + 1,
          fetchedIds := insertId (pyStr (pyGet activity "id")) st1.fetchedIds }
        (writeStep dry_run activity st2, boundary)

def process_page (c : Client) (after : Int) (dry_run : Bool)
    (items : List Pyd) (st : BfState) : BfState × Bool :=
  items.foldl (process_item c after dry_run) (st, false)

/-- The backfill `while True:` loop (sync_garmin.py:703-738), fuelled.  On a
rate-limit-classified fetch error the loop stops with the state reached after
the last fully processed page; any other fetch error propagates. -/
def backfill_loop (c : Client) (per_page after : Int) (dry_run : Bool) :
    Nat → BfState → Option (Except Exc BfOut)
  | 0, _ => none
  | fuel + 1, st =>
    match fetch_page c st.offset per_page with
    | (res, lg) =>
      let st1 := { st with log := st.log ++ lg }
      match res with
      | .error exc =>
        if is_rate_limited_error exc then some (.ok ⟨st1, false, true, exc.text⟩)
        else some (.error exc)
      | .ok activities =>
        if activities.isEmpty then some (.ok ⟨st1, true, false, ""⟩)
        else
          match process_page c after dry_run activities st1 with
          | (st2, boundary) =>
            let st3 := { st2 with
              offset := st2.offset + (activities.length : Int),
              nextOffset := st2.offset + (activities.length : Int) }
            if boundary || decide ((activities.length : Int) < per_page) then
              some (.ok ⟨st3, true, false, ""⟩)
            else backfill_loop c per_page after dry_run fuel st3

/-- The recent-window `while True:` loop (sync_garmin.py:612-644), fuelled. -/
def recent_loop (c : Client) (per_page after : Int) (dry_run : Bool) :
    Nat → BfState → Option (Except Exc BfOut)
  | 0, _ => none
  | fuel + 1, st =>
    match fetch_page c st.offset per_page with
    | (res, lg) =>
      let st1 := { st with log := st.log ++ lg }
      match res with
      | .error exc =>
        if is_rate_limited_error exc then some (.ok ⟨st1, false, true, exc.text⟩)
        else some (.error exc)
      | .ok activities =>
        if activities.isEmpty then some (.ok ⟨st1, false, false, ""⟩)
        else
          match process_page c after dry_run activities st1 with
          | (st2, boundary) =>
            if boundary || decide ((activities.length : Int) < per_page) then
              some (.ok ⟨st2, false, false, ""⟩)
            else
              recent_loop c per_page after dry_run fuel
                { st2 with offset := st2.offset + (activities.length : Int) }

/-- The result dict of `_sync_recent`. -/
structure RecentOut where
  fetched : Nat
  newOrUpdated : Nat
  oldestTs : Option Int
  newestTs : Option Int
  rateLimited : Bool
  rateLimitMessage : String
  activityIds : List String
deriving DecidableEq, Repr

/-- Bundle of `_sync_recent`'s result together with the threaded effects (store,
enrichment counter, request logs). -/
structure RecentRes where
  out : RecentOut
  store : RawStore
  enrich : Nat
  log : List FetchCall
  dlog : List DetailCall

def initBfState (offset : Int) (ids : List String) (store : RawStore)
    (enrich : Nat) : BfState :=
  ⟨offset, offset, 0, 0, ids, none, none, store, enrich, [], []⟩

/-- Embeds `_sync_recent` (sync_garmin.py:584-654), fuelled. -/
def sync_recent (c : Client) (per_page recent_days : Int) (dry_run : Bool)
    (env : Env) (store : RawStore) (enrich0 : Nat) (fuel : Nat) :
    Option (Except Exc RecentRes) :=
  if recent_days ≤ 0 then
    some (.ok ⟨⟨0, 0, none, none, false, "", []⟩, store, enrich0, [], []⟩)
  else
    let after := env.nowTs - recent_days * 86400
    match recent_loop c per_page after dry_run fuel
        (initBfState 0 [] store enrich0) with
    | none => none
    | some (.error exc) => some (.error exc)
    | some (.ok out) =>
      some (.ok ⟨⟨out.st.total, out.st.newOrUpdated, out.st.minTs, out.st.maxTs,
        out.rateLimited, out.msg, sortStrings out.st.fetchedIds⟩,
        out.st.store, out.st.enrich, out.st.log, out.st.dlog⟩)

/-! ## The sync engine -/

/-- Resolution of the persisted backfill cursor (sync_garmin.py:685-696): the
surviving state dict, `[]` when absent, unusable, or invalidated by a changed
`after` bound or activity scope. -/
def resolve_cursor (resume_backfill dry_run : Bool) (after : Int) (scope : Pyd)
    (w : World) : Pyd :=
  let state := if resume_backfill && !dry_run then load_state w else []
  if state.isEmpty then []
  else
    match pyToInt (pyGet state "after") with
    | some a =>
      if a == after then
        if pyEq (pyGet state "activity_scope") (.pydict scope) then state else []
      else []
    | none => []

def optIntVal : Option Int → PyVal
  | some n => .pyint n
  | none => .pynone

/-- The summary dict `sync_garmin` returns (sync_garmin.py:787-802). -/
structure Summary where
  source : String
  fetched : Nat
  newOrUpdated : Nat
  deleted : Nat
  lookbackStartTs : Int
  timestampUtc : String
  rateLimited : Bool
  backfillCompleted : Bool
  backfillNextOffset : Option Int
  durationEnriched : Nat
  recentSync : RecentOut
  rateLimitMessage : Option String
deriving DecidableEq, Repr

/-- The outcome of one `sync_garmin` run, with the internal quantities the
properties below speak about exposed alongside the summary. -/
structure RunResult where
  summary : Summary
  world : World
  recent : RecentOut
  resolvedState : Pyd
  resolvedNextOffset : Int
  skipBackfill : Bool
  ranBackfill : Bool
  exhausted : Bool
  rateLimited : Bool
  bfNextOffset : Int
  fetchedIds : List String
  prePruneStore : RawStore
  canPrune : Bool
  deleted : Nat
  recentLog : List FetchCall
  fetchLog : List FetchCall
  detailLog : List DetailCall

/-- The engine body of `sync_garmin` (sync_garmin.py:666-802): everything
after the configured values (`per_page`, `after`, `activity_scope`,
`recent_days`, `resume_backfill`) have been read from the configuration.
The authenticated client is a parameter (`_load_garmin_client` is the
out-of-scope authentication collaborator, spec section 1); `none` is fuel
exhaustion; `.error` models an uncaught raise. -/
def sync_engine (fuel : Nat) (config : Pyd) (c : Client) (env : Env)
    (dry_run prune_deleted : Bool) (per_page after : Int) (scope : Pyd)
    (recent_days : Int) (resume_backfill : Bool) (w : World) :
    Option (Except Exc RunResult) :=
  match (if dry_run then some w else maybe_reset_for_new_account config env w) with
  | none => some (.error ⟨"TypeError", "account fingerprint"⟩)
  | some w1 =>
  match sync_recent c per_page recent_days dry_run env w1.rawStore 0 fuel with
  | none => none
  | some (.error exc) => some (.error exc)
  | some (.ok recentRes) =>
  let recentOut := recentRes.out
  let rate_limited0 := recentOut.rateLimited
  let msg0 := recentOut.rateLimitMessage
  let state := resolve_cursor resume_backfill dry_run after scope w1
  let skip_backfill := !state.isEmpty && pyTruthy (pyGet state "completed")
  let next_offset0 :=
    match (if state.isEmpty then none else pyToInt (pyGet state "next_offset")) with
    | some n => n
    | none => 0
  let ranBackfill := !rate_limited0 && !skip_backfill
  match (if ranBackfill then
      backfill_loop c per_page after dry_run fuel
        (initBfState next_offset0 recentOut.activityIds recentRes.store
          recentRes.enrich)
    else some (.ok ⟨initBfState next_offset0 recentOut.activityIds
      recentRes.store recentRes.enrich, false, false, ""⟩)) with
  | none => none
  | some (.error exc) => some (.error exc)
  | some (.ok bf) =>
  let exhausted := ranBackfill && bf.exhausted
  let rate_limited := rate_limited0 || bf.rateLimited
  let msg := if bf.rateLimited then bf.msg else msg0
  let fetched_ids := bf.st.fetchedIds
  let prePrune := bf.st.store
  let can_prune := prune_deleted && !dry_run && !skip_backfill && exhausted &&
    !rate_limited
  let store2 := if can_prune then prePrune.filter (fun e => fetched_ids.contains e.1)
    else prePrune
  let deleted := if can_prune then
      (prePrune.filter (fun e => !fetched_ids.contains e.1)).length
    else 0
  let completed := if skip_backfill then true else exhausted && !rate_limited
  let next_offset_final : Option Int :=
    if completed then none else some bf.st.nextOffset
  let stateUpd0 : Pyd :=
    if skip_backfill && !state.isEmpty then
      assocSet "last_run_utc" (.pystr env.nowIso)
        (assocSet "rate_limited" (.pybool rate_limited)
          (assocSet "completed" (.pybool true) state))
    else
      [("after", .pyint after),
       ("next_offset", optIntVal next_offset_final),
       ("completed", .pybool completed),
       ("oldest_seen_ts", optIntVal bf.st.minTs),
       ("newest_seen_ts", optIntVal bf.st.maxTs),
       ("rate_limited", .pybool rate_limited),
       ("last_run_utc", .pystr env.nowIso)]
  let stateUpd := assocSet "activity_scope" (.pydict scope) stateUpd0
  let world2 : World :=
    ⟨store2,
     if dry_run then w1.backfillState else some (.pydict stateUpd),
     w1.athleteFile, w1.derivedExists⟩
  let summary : Summary :=
    ⟨"garmin",
     bf.st.total + recentOut.fetched,
     bf.st.newOrUpdated + recentOut.newOrUpdated,
     deleted, after, env.nowIso, rate_limited, completed, next_offset_final,
     bf.st.enrich, recentOut,
     if rate_limited then some msg else none⟩
  some (.ok
    ⟨summary, world2, recentOut, state, next_offset0, skip_backfill, ranBackfill,
     bf.exhausted, rate_limited, bf.st.nextOffset, fetched_ids, prePrune,
     can_prune, deleted, recentRes.log, recentRes.log ++ bf.st.log,
     recentRes.dlog ++ bf.st.dlog⟩)

/-- Embeds `sync_garmin` (sync_garmin.py:657-802), fuelled: read the configured
values (each `int(...)`/attribute access can raise on a malformed
configuration), then run the engine. -/
def sync_garmin (fuel : Nat) (config : Pyd) (c : Client) (env : Env)
    (dry_run prune_deleted : Bool) (w : World) :
    Option (Except Exc RunResult) :=
  match getSectionOr config "sync" with
  | none => some (.error ⟨"AttributeError", "config sync section"⟩)
  | some sync_cfg =>
  match pyToInt (pyGetD sync_cfg "per_page" (.pyint 200)) with
  | none => some (.error ⟨"TypeError", "per_page"⟩)
  | some per_page =>
  match start_after_ts config env with
  | none => some (.error ⟨"ValueError", "start_date/lookback_years"⟩)
  | some after =>
  match activity_scope config with
  | none => some (.error ⟨"AttributeError", "activities section"⟩)
  | some scope =>
  match pyToInt (pyGetD sync_cfg "recent_days" (.pyint 7)) with
  | none => some (.error ⟨"TypeError", "recent_days"⟩)
  | some recent_days =>
  let resume_backfill := pyTruthy (pyGetD sync_cfg "resume_backfill" (.pybool true))
  sync_engine fuel config c env dry_run prune_deleted per_page after scope
    recent_days resume_backfill w

/-! ## Substring containment, related to its specification -/

theorem leadsWith_iff (a b : List Char) : leadsWith a b = true ↔ a <+: b := by
  induction a generalizing b with
  | nil => simp [leadsWith]
  | cons x xs ih =>
    cases b with
    | nil => simp [leadsWith]
    | cons y ys => simp [leadsWith, ih, List.cons_prefix_cons]

theorem containsChars_iff (n : List Char) (hn : n ≠ []) (h : List Char) :
    containsChars n h = true ↔ n <:+: h := by
  induction h with
  | nil => simp [containsChars, List.infix_nil, hn]
  | cons b bs ih => simp [containsChars, List.infix_cons_iff, leadsWith_iff, ih]

theorem strContains_iff (hay needle : String) :
    strContains hay needle = true ↔ needle.data <:+: hay.data := by
  unfold strContains
  cases hd : needle.data with
  | nil => simp [hd, List.nil_infix]
  | cons c cs =>
    simpa [List.isEmpty] using containsChars_iff (c :: cs) (by simp) hay.data

/-- The spec's notion of marker detection: `s` contains `marker`
case-insensitively. -/
def containsCI (s marker : String) : Prop :=
  (lowerStr marker).data <:+: (lowerStr s).data

/-- C7 counterexample: an adapter failure whose message text contains the
marker "too many requests" (case-insensitively) — here a plain
`RuntimeError("Too Many Requests")` — is NOT classified as throttling:
`_is_rate_limited_error` matches the squashed token `"toomanyrequests"`
against the type name only, and the message only against `"429"` and
`"rate limit"`. -/
theorem is_rate_limited_error_counterexample :
    containsCI "Too Many Requests" "too many requests" ∧
      is_rate_limited_error ⟨"RuntimeError", "Too Many Requests"⟩ = false := by
  constructor
  · have h : strContains (lowerStr "Too Many Requests") "too many requests" = true := by
      decide
    have h2 := (strContains_iff (lowerStr "Too Many Requests") "too many requests").mp h
    have h3 : lowerStr "too many requests" = "too many requests" := by decide
    simpa [containsCI, h3] using h2
  · decide

/-- C7 (amended): `_is_rate_limited_error` classifies an adapter exception as
throttling exactly when the lowercased type name contains `"toomanyrequests"`,
or the lowercased message text contains `"429"` or `"rate limit"`; a message
containing `"too many requests"` (with spaces) is not by itself a throttling
signal, nor is a type name containing `"429"`. -/
theorem is_rate_limited_error_spec (exc : Exc) :
    is_rate_limited_error exc = true ↔
      (containsCI exc.name "toomanyrequests" ∨ containsCI exc.text "429" ∨
        containsCI exc.text "rate limit") := by
  have h1 : lowerStr "toomanyrequests" = "toomanyrequests" := by decide
  have h2 : lowerStr "429" = "429" := by decide
  have h3 : lowerStr "rate limit" = "rate limit" := by decide
  unfold is_rate_limited_error containsCI
  rw [Bool.or_eq_true, Bool.or_eq_true, strContains_iff, strContains_iff,
    strContains_iff, h1, h2, h3, or_assoc]

/-! ## Duration enrichment: gating and outcomes -/

theorem fetchDurationGo_pos (activity_id : String) :
    ∀ (methods : List (String × Option (String → Except Exc PyVal)))
      (log l : List DetailCall) (v : Frac),
      fetchDurationGo activity_id methods log = (some v, l) → v.isPos = true := by
  intro methods
  induction methods with
  | nil => intro log l v h; simp [fetchDurationGo] at h
  | cons m rest ih =>
    intro log l v h
    obtain ⟨nm, om⟩ := m
    cases om with
    | none => exact ih _ _ _ (by simpa [fetchDurationGo] using h)
    | some f =>
      rw [fetchDurationGo] at h
      cases hf : f activity_id with
      | error e => rw [hf] at h; exact ih _ _ _ h
      | ok payload =>
        rw [hf] at h
        cases payload with
        | pydict d =>
          by_cases hp : (pick_duration_seconds (duration_candidates d)).isPos = true
          · simp only [hp, if_true] at h
            injection h with h1 h2
            injection h1 with h1
            exact h1 ▸ hp
          · simp only [hp, if_false] at h
            exact ih _ _ _ h
        | pynone => exact ih _ _ _ h
        | pybool b => exact ih _ _ _ h
        | pyint n => exact ih _ _ _ h
        | pyfloat q => exact ih _ _ _ h
        | pystr s => exact ih _ _ _ h
        | pylist xs => exact ih _ _ _ h

set_option maxRecDepth 8000 in
/-- C8 (amended): duration enrichment is gated on the duration NOT being
positive (`_safe_float(...) > 0`), not on it being zero: a record with
positive `moving_time` is returned unchanged with no detail lookup; whenever
the detail lookup resolves nothing, the record and the enrichment counter are
unchanged (a zero duration stays zero); and a resolved duration is always
positive.  (A record with a nonzero but negative duration IS re-queried, see
the counterexample.) -/
theorem enrich_missing_duration_spec :
    (∀ (c : Client) (rec : Pyd) (n : Nat),
      (safe_float (pyGet rec "moving_time")).isPos = true →
        enrich_missing_duration c rec n = (rec, n, [])) ∧
    (∀ (c : Client) (rec : Pyd) (n : Nat),
      (fetch_activity_duration_from_summary c
          (stripStr (strOrEmpty (pyGet rec "id")))).1 = none →
        (enrich_missing_duration c rec n).1 = rec ∧
        (enrich_missing_duration c rec n).2.1 = n) ∧
    (∀ (c : Client) (activity_id : String) (v : Frac) (l : List DetailCall),
      fetch_activity_duration_from_summary c activity_id = (some v, l) →
        v.isPos = true) := by
  refine ⟨?_, ?_, ?_⟩
  · intro c rec n h
    simp [enrich_missing_duration, h]
  · intro c rec n h
    by_cases hp : (safe_float (pyGet rec "moving_time")).isPos = true
    · simp [enrich_missing_duration, hp]
    · by_cases hid : stripStr (strOrEmpty (pyGet rec "id")) = ""
      · simp [enrich_missing_duration, hp, hid]
      · rcases hfull : fetch_activity_duration_from_summary c
            (stripStr (strOrEmpty (pyGet rec "id"))) with ⟨o, lg⟩
        rw [hfull] at h
        simp only at h
        subst h
        simp [enrich_missing_duration, hp, hid, hfull]
  · intro c activity_id v l h
    exact fetchDurationGo_pos activity_id _ _ _ _ h

/-- Witness for the amended C8 theorem: a record with positive duration is
untouched, and with a detail-less client an unresolvable zero duration stays
zero. -/
theorem enrich_missing_duration_spec_witness :
    enrich_missing_duration
      ⟨none, none, none, none, none, none⟩
      [("id", .pystr "9"), ("moving_time", .pyfloat ⟨10, 1⟩)] 0 =
      ([("id", .pystr "9"), ("moving_time", .pyfloat ⟨10, 1⟩)], 0, []) ∧
    (enrich_missing_duration ⟨none, none, none, none, none, none⟩
        [("id", .pystr "9"), ("moving_time", .pyfloat ⟨0, 1⟩)] 0).1 =
      [("id", .pystr "9"), ("moving_time", .pyfloat ⟨0, 1⟩)] := by
  constructor
  · exact enrich_missing_duration_spec.1 _ _ _ (by decide)
  · exact (enrich_missing_duration_spec.2.1 _ _ _ (by decide)).1

def c8rec : Pyd := [("id", .pystr "7"), ("moving_time", .pyfloat ⟨-5, 1⟩)]

def c8client : Client :=
  ⟨none, none, some fun _ => .ok (.pydict [("duration", .pyint 42)]),
   none, none, none⟩

/-- C8 counterexample: a record whose `moving_time` is nonzero (here `-5.0`)
is nevertheless re-queried for detail — one `get_activity` lookup is issued —
and is not returned unchanged (its duration becomes `42.0`): the gate is
`> 0`, not `== 0`. -/
theorem enrich_nonzero_duration_counterexample :
    (safe_float (pyGet c8rec "moving_time")).num ≠ 0 ∧
    (enrich_missing_duration c8client c8rec 0).2.2 = [("get_activity", "7")] ∧
    safe_float (pyGet (enrich_missing_duration c8client c8rec 0).1 "moving_time") =
      ⟨42, 1⟩ := by
  refine ⟨by decide, by decide, by decide⟩

/-! ## Normalization: totality and the id/start-time gate -/

theorem coalesce_none_or_not_skipped (vs : List PyVal) :
    coalesce vs = .pynone ∨ isSkippedValue (coalesce vs) = false := by
  induction vs with
  | nil => exact Or.inl rfl
  | cons v rest ih =>
    by_cases hv : isSkippedValue v = true
    · simpa [coalesce, hv] using ih
    · right
      simp only [coalesce, if_neg hv]
      exact Bool.not_eq_true _ ▸ hv

theorem natDigits_ne_nil (fuel n : Nat) : natDigits (fuel + 1) n ≠ [] := by
  rw [natDigits]
  split
  · simp
  · simp

theorem natStr_data_ne_nil (n : Nat) : (natStr n).data ≠ [] := natDigits_ne_nil n n

theorem intStr_data_ne_nil (n : Int) : (intStr n).data ≠ [] := by
  unfold intStr
  split
  · simp [String.data_append]
  · exact natStr_data_ne_nil n.natAbs

theorem str_ne_empty_of_data (s : String) (h : s.data ≠ []) : s ≠ "" := by
  intro he
  apply h
  rw [he]

/-- Applying `str` to a Python value other than the empty string is non-empty. -/
theorem pyStr_data_ne_nil (v : PyVal) (hv : v ≠ .pystr "") : (pyStr v).data ≠ [] := by
  cases v with
  | pynone => simp [pyStr]
  | pybool b => cases b <;> simp [pyStr]
  | pyint n => exact intStr_data_ne_nil n
  | pyfloat q =>
    simp only [pyStr, fracStr, String.data_append, ne_eq, List.append_eq_nil]
    intro h
    exact intStr_data_ne_nil q.num h.1.1
  | pystr s =>
    intro h
    apply hv
    have hdata : s.data = [] := h
    cases s with
    | mk l =>
      cases hdata
      rfl
  | pylist xs => simp [pyStr, String.data_append]
  | pydict fs => simp [pyStr, String.data_append]

def c9idCandidates (p : Pyd) : PyVal :=
  coalesce [pyGet p "activityId", pyGet p "id"]

def c9startCandidates (p : Pyd) : PyVal :=
  coalesce [pyGet p "startTimeLocal", pyGet p "startTimeGMT",
    pyGet p "startTimeGmt", pyGet p "startDate"]

/-- C9 (amended): `_normalize_activity` is total (the embedding is a plain
function: no payload makes it raise), and it yields no record exactly when the
id-candidate coalesce is `None` or the start-time-candidate coalesce is FALSY
(Python truthiness: absent, `None`, `""`, `[]`, but also `0`, `0.0`, `False`,
`{}`); otherwise it yields a record whose `"id"` entry is a non-empty string.
(The original claim's "absent or empty" is wrong for present falsy start
values such as `0`, see the counterexample.) -/
theorem normalize_activity_spec (p : Pyd) :
    (normalize_activity p = [] ↔
      (pyEq (c9idCandidates p) .pynone = true ∨
        pyTruthy (c9startCandidates p) = false)) ∧
    (normalize_activity p ≠ [] →
      ∃ s, pyLookup "id" (normalize_activity p) = some (.pystr s) ∧ s ≠ "") := by
  by_cases h1 : pyEq (c9idCandidates p) .pynone = true
  · constructor
    · simp [normalize_activity, c9idCandidates] at h1 ⊢
      simp [h1]
    · intro hne
      exact absurd (by simp [normalize_activity, c9idCandidates] at h1 ⊢; simp [h1]) hne
  · by_cases h2 : pyTruthy (c9startCandidates p) = false
    · constructor
      · simp [normalize_activity, c9idCandidates, c9startCandidates] at h1 h2 ⊢
        simp [h1, h2]
      · intro hne
        exact absurd
          (by simp [normalize_activity, c9idCandidates, c9startCandidates] at h1 h2 ⊢
              simp [h1, h2]) hne
    · have hid : c9idCandidates p ≠ .pystr "" := by
        rcases coalesce_none_or_not_skipped
            [pyGet p "activityId", pyGet p "id"] with h | h
        · intro _; exact h1 (by rw [c9idCandidates, h]; rfl)
        · intro he
          rw [c9idCandidates] at he
          rw [he] at h
          simp [isSkippedValue, pyEq] at h
      have hsne : pyStr (c9idCandidates p) ≠ "" :=
        str_ne_empty_of_data _ (pyStr_data_ne_nil _ hid)
      have hform : normalize_activity p = [] ↔ False := by
        simp only [normalize_activity, c9idCandidates, c9startCandidates] at h1 h2 ⊢
        rw [if_neg h1, if_neg (by simp [h2])]
        split <;> simp
      constructor
      · simp [hform, h1, h2]
      · intro _
        refine ⟨pyStr (c9idCandidates p), ?_, hsne⟩
        simp only [normalize_activity, c9idCandidates, c9startCandidates] at h1 h2 ⊢
        rw [if_neg h1, if_neg (by simp [h2])]
        split
        · simp [pyLookup]
        · simp [pyLookup]

def c9payload : Pyd := [("activityId", .pystr "1"), ("startTimeLocal", .pyint 0)]

/-- C9 counterexample: a payload whose id candidate (`"1"`) and start-time
candidate (`0`) are both present and non-empty still yields NO record,
because the start-time gate is Python falsiness (`if not start_local`), which
rejects the present value `0`. -/
theorem normalize_activity_counterexample :
    isSkippedValue (pyGet c9payload "activityId") = false ∧
    isSkippedValue (pyGet c9payload "startTimeLocal") = false ∧
    normalize_activity c9payload = [] := by
  refine ⟨by decide, by decide, rfl⟩

/-! ## Raw-store upsert idempotence -/

def runOk : Option (Except Exc RunResult) → Option RunResult
  | some (.ok r) => some r
  | _ => none

def defaultRecentOut : RecentOut := ⟨0, 0, none, none, false, "", []⟩

def defaultRunResult : RunResult :=
  ⟨⟨"", 0, 0, 0, 0, "", false, false, none, 0, defaultRecentOut, none⟩,
   ⟨[], none, none, false⟩, defaultRecentOut, [], 0, false, false, false, false,
   0, [], [], false, 0, [], [], []⟩

def getRun (x : Option (Except Exc RunResult)) : RunResult :=
  (runOk x).getD defaultRunResult

def c5act1 : PyVal :=
  .pydict [("activityId", .pystr "r1"), ("startTimeGMT", .pystr "2030-01-01 08:00:00"),
           ("duration", .pyint 60)]

def c5act2 : PyVal :=
  .pydict [("activityId", .pystr "r2"), ("startTimeGMT", .pystr "2030-01-02 08:00:00"),
           ("duration", .pyint 90)]

def c5client : Client :=
  ⟨some fun start _limit =>
      if start == 0 then .ok (.pylist [c5act1, c5act2]) else .ok (.pylist []),
   none, none, none, none, none⟩

def c5config : Pyd :=
  [("sync", .pydict [("per_page", .pyint 3), ("recent_days", .pyint 0),
    ("resume_backfill", .pybool false)])]

def c5env : Env := ⟨⟨2031, 6, 1, 12, 0, 0⟩⟩

def c5run1 : Option (Except Exc RunResult) :=
  sync_garmin 10 c5config c5client c5env false false ⟨[], none, none, false⟩

def c5run2 : Option (Except Exc RunResult) :=
  sync_garmin 10 c5config c5client c5env false false (getRun c5run1).world

/-- C5: the raw-store upsert is idempotent.  (1) For every record whose
persisted counterpart under its id is structurally identical (Python `==`),
`_write_activity` skips the write, leaves the store untouched and reports
`False` (so the record is not counted toward `new_or_updated`).  (2) A second
backfill run over an unchanged provider dataset — same client, state and
store carried over from the first run, `resume_backfill` disabled so that the
pages really are re-fetched — reports `new_or_updated = 0` where the first
run reported 2. -/
theorem write_activity_idempotent :
    (∀ (activity : Pyd) (store : RawStore) (existing : Pyd),
      assocLookup (stripStr (strOrEmpty (pyGet activity "id"))) store =
          some existing →
        pyEq (.pydict existing) (.pydict activity) = true →
        write_activity activity store = (store, false)) ∧
    ((runOk c5run1).map (fun r => r.summary.newOrUpdated) = some 2 ∧
     (runOk c5run2).map (fun r => r.summary.newOrUpdated) = some 0) := by
  refine ⟨?_, by decide, by decide⟩
  intro activity store existing hl he
  simp [write_activity, hl, he]

/-- Witness for the first part of the C5 theorem: a store already holding the
identical record under id `"x"` is untouched and nothing is counted. -/
theorem write_activity_idempotent_witness :
    write_activity [("id", .pystr "x")] [("x", [("id", .pystr "x")])] =
      ([("x", [("id", .pystr "x")])], false) :=
  write_activity_idempotent.1 _ _ _ rfl (by decide)

/-! ## The account-identity guard -/

def c6config : Pyd :=
  [("garmin", .pydict [("email", .pystr "A@b.c"), ("password", .pystr "p")])]

def c6fp : String := hmacSha256 "p" "a@b.c"

def c6stored : PyVal :=
  .pydict [("fingerprint", .pystr c6fp),
           ("updated_utc", .pystr "2020-01-01T00:00:00+00:00"),
           ("version", .pyint 1)]

def c6world : World := ⟨[], none, some c6stored, true⟩

def c6env : Env := ⟨⟨2031, 1, 1, 0, 0, 0⟩⟩

/-- C6 counterexample: with a computable fingerprint that MATCHES the stored
one, `_maybe_reset_for_new_account` returns before `_write_account_fingerprint`
— the guard does NOT persist the fingerprint in this case of the decision
table: the stored record keeps its old `updated_utc` instead of being
rewritten at the run's clock. -/
theorem maybe_reset_match_no_write_counterexample :
    account_fingerprint c6config = some (some c6fp) ∧
    load_account_fingerprint c6world = some c6fp ∧
    maybe_reset_for_new_account c6config c6env c6world = some c6world ∧
    c6env.nowIso ≠ "2020-01-01T00:00:00+00:00" := by
  refine ⟨by decide, by decide, rfl, by decide⟩

/-- C6 (amended): when the account fingerprint is computable, the guard
persists it after applying its decision in every case EXCEPT the one where
the stored fingerprint already matches: there it returns early without
rewriting the record (so the stored fingerprint still equals the current one,
but the persisted record is not refreshed). -/
theorem maybe_reset_for_new_account_spec (config : Pyd) (env : Env) (w : World)
    (f : String) (hf : account_fingerprint config = some (some f)) :
    (load_account_fingerprint w = some f →
      maybe_reset_for_new_account config env w = some w) ∧
    (load_account_fingerprint w ≠ some f →
      (maybe_reset_for_new_account config env w).map World.athleteFile =
        some (some (fingerprint_payload f env))) := by
  constructor
  · intro h
    simp [maybe_reset_for_new_account, hf, h]
  · intro h
    have hbeq : (load_account_fingerprint w == some f) = false := by
      simpa using h
    simp only [maybe_reset_for_new_account, hf, hbeq, Bool.false_eq_true, if_false]
    split <;> simp

/-- Witness for the amended C6 theorem: with no stored fingerprint, the guard
writes the current fingerprint's payload. -/
theorem maybe_reset_for_new_account_spec_witness :
    (maybe_reset_for_new_account c6config c6env ⟨[], none, none, false⟩).map
        World.athleteFile =
      some (some (fingerprint_payload c6fp c6env)) :=
  (maybe_reset_for_new_account_spec c6config c6env ⟨[], none, none, false⟩ c6fp
    (by decide)).2 (by decide)

/-! ## Anatomy of a finished engine run -/

/-- Decomposition of a finished (`.ok`) engine run: how the exposed fields of
the result relate, exactly as computed by `sync_garmin`'s body — the prune
gate, the pruned store, the completed/next-offset summary fields, the
skip/ran flags, the resolved cursor offset, the no-backfill case, and the
persisted cursor record. -/
theorem sync_engine_ok (fuel : Nat) (config : Pyd) (c : Client) (env : Env)
    (dry_run prune_deleted : Bool) (per_page after : Int) (scope : Pyd)
    (recent_days : Int) (resume_backfill : Bool) (w : World) (R : RunResult)
    (h : sync_engine fuel config c env dry_run prune_deleted per_page after
      scope recent_days resume_backfill w = some (.ok R)) :
    R.canPrune = (prune_deleted && !dry_run && !R.skipBackfill &&
        R.exhausted && !R.rateLimited) ∧
    R.world.rawStore = (if R.canPrune then
        R.prePruneStore.filter (fun e => R.fetchedIds.contains e.1)
      else R.prePruneStore) ∧
    R.deleted = (if R.canPrune then
        (R.prePruneStore.filter (fun e => !R.fetchedIds.contains e.1)).length
      else 0) ∧
    R.summary.deleted = R.deleted ∧
    R.summary.rateLimited = R.rateLimited ∧
    R.summary.backfillCompleted =
      (if R.skipBackfill then true else R.exhausted && !R.rateLimited) ∧
    R.summary.backfillNextOffset =
      (if R.summary.backfillCompleted = true then none else some R.bfNextOffset) ∧
    R.ranBackfill = (!R.recent.rateLimited && !R.skipBackfill) ∧
    R.skipBackfill = (!R.resolvedState.isEmpty &&
      pyTruthy (pyGet R.resolvedState "completed")) ∧
    R.resolvedNextOffset =
      (match (if R.resolvedState.isEmpty then none
          else pyToInt (pyGet R.resolvedState "next_offset")) with
        | some n => n
        | none => 0) ∧
    (R.ranBackfill = false → R.fetchLog = R.recentLog ∧
      R.bfNextOffset = R.resolvedNextOffset ∧ R.exhausted = false ∧
      R.rateLimited = R.recent.rateLimited) ∧
    (dry_run = false → R.skipBackfill = false → ∃ stx,
      R.world.backfillState = some (.pydict stx) ∧
      pyLookup "next_offset" stx = some (optIntVal R.summary.backfillNextOffset)) := by
  simp only [sync_engine] at h
  split at h
  · simp at h
  split at h
  · simp at h
  · simp at h
  split at h
  · simp at h
  · simp at h
  next bf hbf =>
  rename_i xw w1 hmr xr recentRes hrec xb
  split at hbf
  · -- the backfill pass ran
    next hcond =>
    simp only [Option.some.injEq, Except.ok.injEq] at h
    subst h
    refine ⟨?_, ?_, ?_, ?_, ?_, ?_, ?_, ?_, ?_, ?_, ?_, ?_⟩
    all_goals try rfl
    all_goals try (simp only [hcond]; rfl)
    · intro hh
      simp only [hcond] at hh
      exact absurd hh (by simp)
    · intro hdry hskip
      simp only at hskip
      simp only [hdry] at hskip ⊢
      simp only [hskip, Bool.false_and, Bool.false_eq_true, if_false]
      exact ⟨_, rfl, rfl⟩
  · -- the backfill pass was skipped or the recent pass was throttled
    next hcond =>
    simp only [Option.some.injEq, Except.ok.injEq] at hbf
    subst hbf
    simp only [Option.some.injEq, Except.ok.injEq] at h
    subst h
    have hcond2 : (!recentRes.out.rateLimited &&
        !(!List.isEmpty (resolve_cursor resume_backfill dry_run after scope w1) &&
          pyTruthy (pyGet (resolve_cursor resume_backfill dry_run after scope w1)
            "completed"))) = false := by
      revert hcond
      cases (!recentRes.out.rateLimited &&
        !(!List.isEmpty (resolve_cursor resume_backfill dry_run after scope w1) &&
          pyTruthy (pyGet (resolve_cursor resume_backfill dry_run after scope w1)
            "completed"))) <;> simp
    refine ⟨?_, ?_, ?_, ?_, ?_, ?_, ?_, ?_, ?_, ?_, ?_, ?_⟩
    all_goals try rfl
    all_goals try (simp only [initBfState, hcond2]; rfl)
    · intro _
      exact ⟨by simp [initBfState], by simp [initBfState], rfl,
        by simp [initBfState]⟩
    · intro hdry hskip
      simp only at hskip
      simp only [hdry] at hskip ⊢
      simp only [hskip, Bool.false_and, Bool.false_eq_true, if_false]
      exact ⟨_, rfl, rfl⟩

/-! ## Prune safety -/

/-- C4: a stored record is deleted only when every prune gate holds — pruning
requested, not a dry run, backfill not skipped as already-complete, backfill
exhausted history this run, no rate limiting this run — and even then only
when its id is outside the union of the run's recent-window and backfill
fetch-id sets (`R.fetchedIds`); a record whose id is in the fetch set always
survives; and in a rate-limited run nothing is deleted at all. -/
theorem sync_garmin_prune_safety (fuel : Nat) (config : Pyd) (c : Client)
    (env : Env) (dry_run prune_deleted : Bool) (per_page after : Int)
    (scope : Pyd) (recent_days : Int) (resume_backfill : Bool) (w : World)
    (R : RunResult)
    (h : sync_engine fuel config c env dry_run prune_deleted per_page after
      scope recent_days resume_backfill w = some (.ok R)) :
    (∀ id r, (id, r) ∈ R.prePruneStore → (id, r) ∉ R.world.rawStore →
      prune_deleted = true ∧ dry_run = false ∧ R.skipBackfill = false ∧
      R.exhausted = true ∧ R.rateLimited = false ∧
      R.fetchedIds.contains id = false) ∧
    (∀ id r, (id, r) ∈ R.prePruneStore → R.fetchedIds.contains id = true →
      (id, r) ∈ R.world.rawStore) ∧
    (R.summary.rateLimited = true →
      R.world.rawStore = R.prePruneStore ∧ R.summary.deleted = 0) := by
  obtain ⟨hcp, hstore, hdel, hsd, hsr, h6, h7, h8, h9, h10, h11, h12⟩ :=
    sync_engine_ok fuel config c env dry_run prune_deleted per_page after
      scope recent_days resume_backfill w R h
  refine ⟨?_, ?_, ?_⟩
  · intro id r hmem hnmem
    by_cases hc : R.canPrune = true
    · have hb := hcp
      rw [hc] at hb
      have hb2 := hb.symm
      simp only [Bool.and_eq_true, Bool.not_eq_true'] at hb2
      obtain ⟨⟨⟨⟨hp, hd⟩, hs⟩, he⟩, hr⟩ := hb2
      refine ⟨hp, hd, hs, he, hr, ?_⟩
      by_contra hcon
      apply hnmem
      rw [hstore, if_pos hc]
      refine List.mem_filter.mpr ⟨hmem, ?_⟩
      simpa using hcon
    · exfalso
      apply hnmem
      rw [hstore, if_neg hc]
      exact hmem
  · intro id r hmem hin
    rw [hstore]
    by_cases hc : R.canPrune = true
    · rw [if_pos hc]
      exact List.mem_filter.mpr ⟨hmem, hin⟩
    · rw [if_neg hc]
      exact hmem
  · intro hrl
    rw [hsr] at hrl
    have hc : R.canPrune = false := by rw [hcp, hrl]; simp
    constructor
    · rw [hstore, hc]
      simp
    · rw [hsd, hdel, hc]
      simp

def c4client : Client :=
  ⟨some fun _ _ =>
      .error ⟨"GarminConnectTooManyRequestsError", "429 Too Many Requests"⟩,
   none, none, none, none, none⟩

def c4world : World := ⟨[("old", [("id", .pystr "old")])], none, none, false⟩

def c4env : Env := ⟨⟨2031, 1, 1, 0, 0, 0⟩⟩

def c4run : Option (Except Exc RunResult) :=
  sync_engine 10 [] c4client c4env false true 3 0 [] 0 true c4world

/-- Witness for C4: in a run throttled on its very first backfill page, with
pruning requested, nothing is deleted. -/
theorem sync_garmin_prune_safety_witness :
    (getRun c4run).world.rawStore = (getRun c4run).prePruneStore ∧
      (getRun c4run).summary.deleted = 0 :=
  (sync_garmin_prune_safety 10 [] c4client c4env false true 3 0 [] 0 true
    c4world (getRun c4run) rfl).2.2 (by decide)

/-! ## A throttled recent pass skips the backfill pass -/

/-- C10: once the recent-window pass has been rate-limited, the backfill pass
is skipped entirely for that run — no further listing requests are issued
(the run's fetch log is exactly the recent pass's) — and, for a
non-already-completed cursor, the run ends not-completed with
`backfill_next_offset` equal to the resolved cursor offset: the previously
persisted `next_offset` when a valid cursor exists, 0 otherwise. -/
theorem sync_garmin_rate_limited_recent_skips_backfill (fuel : Nat)
    (config : Pyd) (c : Client) (env : Env) (dry_run prune_deleted : Bool)
    (per_page after : Int) (scope : Pyd) (recent_days : Int)
    (resume_backfill : Bool) (w : World) (R : RunResult)
    (h : sync_engine fuel config c env dry_run prune_deleted per_page after
      scope recent_days resume_backfill w = some (.ok R))
    (hrl : R.recent.rateLimited = true)
    (hskip : R.skipBackfill = false) :
    R.ranBackfill = false ∧
    R.fetchLog = R.recentLog ∧
    R.summary.backfillCompleted = false ∧
    R.summary.backfillNextOffset = some R.resolvedNextOffset ∧
    (R.resolvedState.isEmpty = true → R.resolvedNextOffset = 0) ∧
    (R.resolvedState.isEmpty = false → R.resolvedNextOffset =
      (match pyToInt (pyGet R.resolvedState "next_offset") with
        | some n => n
        | none => 0)) := by
  obtain ⟨hcp, hstore, hdel, hsd, hsr, h6, h7, h8, h9, h10, h11, h12⟩ :=
    sync_engine_ok fuel config c env dry_run prune_deleted per_page after
      scope recent_days resume_backfill w R h
  have hran : R.ranBackfill = false := by rw [h8, hrl]; simp
  obtain ⟨hlog, hbo, hex, hrl2⟩ := h11 hran
  have hcomp : R.summary.backfillCompleted = false := by
    rw [h6, hskip, hex, hrl2, hrl]
    simp
  refine ⟨hran, hlog, hcomp, ?_, ?_, ?_⟩
  · rw [h7, hcomp, hbo]
    simp
  · intro he
    rw [h10, he]
    simp
  · intro he
    rw [h10, he]
    simp

def c10client : Client :=
  ⟨some fun _ _ =>
      .error ⟨"GarminConnectTooManyRequestsError", "429 Too Many Requests"⟩,
   none, none, none, none, none⟩

def c10state : PyVal :=
  .pydict [("after", .pyint 0), ("next_offset", .pyint 5),
           ("completed", .pybool false), ("activity_scope", .pydict [])]

def c10world : World := ⟨[], some c10state, none, false⟩

def c10env : Env := ⟨⟨2031, 1, 1, 0, 0, 0⟩⟩

def c10run : Option (Except Exc RunResult) :=
  sync_engine 10 [] c10client c10env false false 3 0 [] 7 true c10world

/-- Witness for C10: a recent pass throttled on its first page issues no
backfill listing request, and the run carries over the persisted
`next_offset = 5` of the valid, non-completed cursor. -/
theorem sync_garmin_rate_limited_recent_skips_backfill_witness :
    (getRun c10run).fetchLog = (getRun c10run).recentLog ∧
    (getRun c10run).summary.backfillNextOffset =
      some (getRun c10run).resolvedNextOffset ∧
    (getRun c10run).resolvedNextOffset = 5 ∧
    (getRun c10run).recentLog = [("get_activities", 0, 3)] := by
  have hm := sync_garmin_rate_limited_recent_skips_backfill 10 [] c10client
    c10env false false 3 0 [] 7 true c10world (getRun c10run) rfl
    (by decide) (by decide)
  exact ⟨hm.2.1, hm.2.2.2.1, by decide, by decide⟩

/-! ## Rate limiting during backfill paging -/

def persistedNextOffsetInt (r : RunResult) : Option Int :=
  match r.world.backfillState with
  | some (.pydict d) => pyToInt (pyGet d "next_offset")
  | _ => none

def c1act (id start : String) : PyVal :=
  .pydict [("activityId", .pystr id), ("startTimeGMT", .pystr start),
           ("duration", .pyint 60)]

def c1client : Client :=
  ⟨some fun start _limit =>
      if start == 0 then
        .ok (.pylist [c1act "b1" "2030-01-01 00:00:00",
                      c1act "b2" "2030-01-02 00:00:00",
                      c1act "b3" "2030-01-03 00:00:00"])
      else .error ⟨"GarminConnectTooManyRequestsError", "429 Too Many Requests"⟩,
   none, none, none, none, none⟩

def c1env : Env := ⟨⟨2031, 1, 1, 0, 0, 0⟩⟩

def c1run : Option (Except Exc RunResult) :=
  sync_engine 10 [] c1client c1env false false 3 0 [] 0 true ⟨[], none, none, false⟩

/-- C1: a rate-limit-classified error while fetching a backfill page stops
paging without raising.  (1) Loop level: when the fetch at the current offset
fails with a rate-limit-classified error, the loop returns normally with
`rate_limited = true`, `exhausted = false`, and the state — in particular
`next_offset` — exactly as it stood after the last fully processed page.
(2) Run level: a rate-limited, non-skipped run reports
`backfill_completed = false` and surfaces that retained offset.
(3) Scenario B: page 1 (3 items, page size 3) succeeds, fetching page 2
raises "429 Too Many Requests" → the run returns `.ok` with
`rate_limited = true`, `backfill_completed = false`, and both the summary and
the persisted cursor carry `next_offset = 3`, the offset reached after
page 1. -/
theorem sync_garmin_backfill_rate_limit :
    (∀ (c : Client) (per_page after : Int) (dry_run : Bool) (fuel : Nat)
      (st : BfState) (exc : Exc) (lg : List FetchCall),
      fetch_page c st.offset per_page = (.error exc, lg) →
      is_rate_limited_error exc = true →
      backfill_loop c per_page after dry_run (fuel + 1) st =
        some (.ok ⟨{ st with log := st.log ++ lg }, false, true, exc.text⟩)) ∧
    (∀ (fuel : Nat) (config : Pyd) (c : Client) (env : Env)
      (dry_run prune_deleted : Bool) (per_page after : Int) (scope : Pyd)
      (recent_days : Int) (resume_backfill : Bool) (w : World) (R : RunResult),
      sync_engine fuel config c env dry_run prune_deleted per_page after
          scope recent_days resume_backfill w = some (.ok R) →
      R.skipBackfill = false →
      R.rateLimited = true →
      R.summary.backfillCompleted = false ∧
      R.summary.backfillNextOffset = some R.bfNextOffset) ∧
    ((runOk c1run).isSome = true ∧
     (getRun c1run).summary.rateLimited = true ∧
     (getRun c1run).summary.backfillCompleted = false ∧
     (getRun c1run).summary.backfillNextOffset = some 3 ∧
     persistedNextOffsetInt (getRun c1run) = some 3 ∧
     (getRun c1run).summary.fetched = 3) := by
  refine ⟨?_, ?_, by decide, by decide, by decide, by decide, by decide, by decide⟩
  · intro c per_page after dry_run fuel st exc lg hfe hrl
    rw [backfill_loop, hfe]
    simp only [hrl, if_true]
  · intro fuel config c env dry_run prune_deleted per_page after scope
      recent_days resume_backfill w R h hskip hrl
    obtain ⟨hcp, hstore, hdel, hsd, hsr, h6, h7, h8, h9, h10, h11, h12⟩ :=
      sync_engine_ok fuel config c env dry_run prune_deleted per_page after
        scope recent_days resume_backfill w R h
    have hcomp : R.summary.backfillCompleted = false := by
      rw [h6, hskip, hrl]
      simp
    refine ⟨hcomp, ?_⟩
    rw [h7, hcomp]
    simp

/-- Witness for C1: applying the loop-level part at a concrete client whose
fetch at offset 3 fails with a 429-bearing error: the loop stops normally,
keeps `next_offset = 3`, and flags `rate_limited`. -/
theorem sync_garmin_backfill_rate_limit_witness :
    backfill_loop c1client 3 0 false 5 (initBfState 3 [] [] 0) =
      some (.ok ⟨{ initBfState 3 [] [] 0 with
          log := [] ++ [("get_activities", 3, 3)] },
        false, true,
        "Unable to fetch Garmin activities (get_activities: 429 Too Many Requests)."⟩) :=
  sync_garmin_backfill_rate_limit.1 c1client 3 0 false 4 (initBfState 3 [] [] 0)
    ⟨"RuntimeError",
      "Unable to fetch Garmin activities (get_activities: 429 Too Many Requests)."⟩
    [("get_activities", 3, 3)] rfl (by decide)

/-! ## Exhaustion, boundary scanning and the in-bound count -/

theorem enrich_missing_duration_stats (c : Client) (a : Pyd) (n : Nat) :
    (enrich_missing_duration c a n).1 = (enrich_missing_duration c a 0).1 := by
  by_cases hp : (safe_float (pyGet a "moving_time")).isPos = true
  · simp [enrich_missing_duration, hp]
  · by_cases hid : stripStr (strOrEmpty (pyGet a "id")) = ""
    · simp [enrich_missing_duration, hp, hid]
    · rcases hfull : fetch_activity_duration_from_summary c
          (stripStr (strOrEmpty (pyGet a "id"))) with ⟨o, lg⟩
      cases o with
      | none => simp [enrich_missing_duration, hp, hid, hfull]
      | some v =>
        by_cases hv : v.num ≤ 0
        · simp [enrich_missing_duration, hp, hid, hfull, hv]
        · simp [enrich_missing_duration, hp, hid, hfull, hv]

/-- Whether one raw page item is counted by the loops: it normalizes to a
usable record and (after enrichment) is not strictly older than the `after`
bound — an item with an unparsable timestamp is counted too. -/
def inBoundItem (c : Client) (after : Int) (raw : Pyd) : Bool :=
  if (normalize_activity raw).isEmpty then false
  else
    match activity_start_ts
        (enrich_missing_duration c (normalize_activity raw) 0).1 with
    | some t => decide (after ≤ t)
    | none => true

theorem writeStep_total (dry_run : Bool) (a : Pyd) (st : BfState) :
    (writeStep dry_run a st).total = st.total := by
  unfold writeStep
  split
  · rfl
  · split
    rfl

theorem process_item_total (c : Client) (after : Int) (dry_run : Bool)
    (st : BfState) (b : Bool) (raw : Pyd) :
    ((process_item c after dry_run (st, b) raw).1).total =
      st.total + (if inBoundItem c after raw then 1 else 0) := by
  unfold process_item inBoundItem
  by_cases h0 : (normalize_activity raw).isEmpty = true
  · simp [h0]
  · rcases he : enrich_missing_duration c (normalize_activity raw) st.enrich
      with ⟨r, n2, dl⟩
    have he0 : (enrich_missing_duration c (normalize_activity raw) 0).1 = r := by
      rw [← enrich_missing_duration_stats c (normalize_activity raw) st.enrich, he]
    simp only [h0, Bool.false_eq_true, if_false, he, he0]
    cases hts : activity_start_ts r with
    | some t =>
      by_cases hlt : t < after
      · simp [hts, hlt, show ¬(after ≤ t) from by omega]
      · simp [hts, hlt, show after ≤ t from by omega, writeStep_total]
    | none => simp [hts, writeStep_total]

theorem process_page_total_aux (c : Client) (after : Int) (dry_run : Bool)
    (items : List Pyd) :
    ∀ (st : BfState) (b : Bool),
      (((items.foldl (process_item c after dry_run) (st, b))).1).total =
        st.total + (items.filter (fun raw => inBoundItem c after raw)).length := by
  induction items with
  | nil => intro st b; simp
  | cons raw rest ih =>
    intro st b
    simp only [List.foldl_cons, List.filter_cons]
    rcases hpi : process_item c after dry_run (st, b) raw with ⟨st2, b2⟩
    have htot := process_item_total c after dry_run st b raw
    rw [hpi] at htot
    simp only at htot
    rw [ih st2 b2, htot]
    by_cases hin : inBoundItem c after raw = true
    · simp [hin]
      omega
    · simp [hin]

def persistedNextOffsetIsNone (r : RunResult) : Bool :=
  match r.world.backfillState with
  | some (.pydict d) =>
    (match pyLookup "next_offset" d with
     | some .pynone => true
     | _ => false)
  | _ => false

def c2item (id start : String) : Pyd :=
  [("activityId", .pystr id), ("startTimeGMT", .pystr start),
   ("duration", .pyint 60)]

def c2page0 : List Pyd :=
  [c2item "a1" "2030-01-01 00:00:00", c2item "a2" "2030-01-02 00:00:00",
   c2item "a3" "2030-01-03 00:00:00"]

def c2page1 : List Pyd :=
  [c2item "a4" "2030-01-04 00:00:00", c2item "a5" "2030-01-05 00:00:00",
   c2item "old1" "1960-01-01 00:00:00"]

def c2client : Client :=
  ⟨some fun start _limit =>
      if start == 0 then .ok (.pylist (c2page0.map .pydict))
      else if start == 3 then .ok (.pylist (c2page1.map .pydict))
      else .ok (.pylist []),
   none, none, none, none, none⟩

def c2env : Env := ⟨⟨2031, 1, 1, 0, 0, 0⟩⟩

def c2run : Option (Except Exc RunResult) :=
  sync_engine 10 [] c2client c2env false false 3 0 [] 0 true ⟨[], none, none, false⟩

/-- C2: exhausting history without rate limiting ends the run completed with
the cursor cleared.  (1) Run level: a non-skipped run with `exhausted = true`
and no rate limiting reports `backfill_completed = true`,
`backfill_next_offset = null`, and (when not a dry run) persists a cursor
whose `next_offset` key holds `None`.  (2) Page level: scanning a page counts
exactly its in-bound items — an out-of-bound item marks the boundary but does
not stop the scan, so items after it are still counted.  (3) Scenario A: two
pages of 3 items (page size 3), page 2 holding one out-of-bound item →
`completed = true`, `next_offset = null` (summary and persisted cursor), and
`fetched = 5` = the number of in-bound items across both pages. -/
theorem sync_garmin_backfill_exhaustion :
    (∀ (fuel : Nat) (config : Pyd) (c : Client) (env : Env)
      (dry_run prune_deleted : Bool) (per_page after : Int) (scope : Pyd)
      (recent_days : Int) (resume_backfill : Bool) (w : World) (R : RunResult),
      sync_engine fuel config c env dry_run prune_deleted per_page after
          scope recent_days resume_backfill w = some (.ok R) →
      R.skipBackfill = false →
      R.exhausted = true →
      R.rateLimited = false →
      R.summary.backfillCompleted = true ∧
      R.summary.backfillNextOffset = none ∧
      (dry_run = false → ∃ stx,
        R.world.backfillState = some (.pydict stx) ∧
        pyLookup "next_offset" stx = some .pynone)) ∧
    (∀ (c : Client) (after : Int) (dry_run : Bool) (items : List Pyd)
      (st : BfState),
      ((process_page c after dry_run items st).1).total =
        st.total +
          (items.filter (fun raw => inBoundItem c after raw)).length) ∧
    ((runOk c2run).isSome = true ∧
     (getRun c2run).summary.backfillCompleted = true ∧
     (getRun c2run).summary.backfillNextOffset = none ∧
     persistedNextOffsetIsNone (getRun c2run) = true ∧
     (getRun c2run).summary.rateLimited = false ∧
     (getRun c2run).summary.fetched = 5 ∧
     ((c2page0 ++ c2page1).filter
        (fun raw => inBoundItem c2client 0 raw)).length = 5) := by
  refine ⟨?_, ?_, by decide, by decide, by decide, by decide, by decide,
    by decide, by decide⟩
  · intro fuel config c env dry_run prune_deleted per_page after scope
      recent_days resume_backfill w R h hskip hex hrl
    obtain ⟨hcp, hstore, hdel, hsd, hsr, h6, h7, h8, h9, h10, h11, h12⟩ :=
      sync_engine_ok fuel config c env dry_run prune_deleted per_page after
        scope recent_days resume_backfill w R h
    have hcomp : R.summary.backfillCompleted = true := by
      rw [h6, hskip, hex, hrl]
      simp
    have hno : R.summary.backfillNextOffset = none := by
      rw [h7, hcomp]
      simp
    refine ⟨hcomp, hno, ?_⟩
    intro hdry
    obtain ⟨stx, hbs, hlook⟩ := h12 hdry hskip
    exact ⟨stx, hbs, by rw [hlook, hno]; rfl⟩
  · intro c after dry_run items st
    exact process_page_total_aux c after dry_run items st false

/-- Witness for C2: applying the run-level part to Scenario A's run yields the
completed summary with the cursor cleared, and the persisted record holds
`next_offset = None`. -/
theorem sync_garmin_backfill_exhaustion_witness :
    (getRun c2run).summary.backfillCompleted = true ∧
    (getRun c2run).summary.backfillNextOffset = none ∧
    (∃ stx, (getRun c2run).world.backfillState = some (.pydict stx) ∧
      pyLookup "next_offset" stx = some .pynone) := by
  have hm := sync_garmin_backfill_exhaustion.1 10 [] c2client c2env false false
    3 0 [] 0 true ⟨[], none, none, false⟩ (getRun c2run) rfl (by decide)
    (by decide) (by decide)
  exact ⟨hm.1, hm.2.1, hm.2.2 rfl⟩

/-! ## Cursor invalidation on a changed bound or scope -/

theorem maybe_reset_backfillState_map (config : Pyd) (env : Env) (w : World)
    (b : Option PyVal) :
    maybe_reset_for_new_account config env { w with backfillState := b } =
      (maybe_reset_for_new_account config env w).map
        (fun u => { u with backfillState := b }) := by
  unfold maybe_reset_for_new_account
  cases account_fingerprint config with
  | none => rfl
  | some o =>
    cases o with
    | none => rfl
    | some f =>
      have hload : load_account_fingerprint { w with backfillState := b } =
          load_account_fingerprint w := rfl
      rw [hload]
      by_cases hs : (load_account_fingerprint w == some f) = true
      · simp [hs]
      · have hs2 : (load_account_fingerprint w == some f) = false := by
          revert hs
          cases load_account_fingerprint w == some f <;> simp
        by_cases h2 : (load_account_fingerprint w).isSome = true <;>
          by_cases h3 : w.derivedExists = true <;>
            simp [hs2, h2, h3, reset_persisted_data, has_existing_data]

theorem maybe_reset_preserves_backfillState (config : Pyd) (env : Env)
    (w w1 : World)
    (h : maybe_reset_for_new_account config env w = some w1) :
    w1.backfillState = w.backfillState := by
  unfold maybe_reset_for_new_account at h
  cases haf : account_fingerprint config with
  | none => rw [haf] at h; simp at h
  | some o =>
    rw [haf] at h
    cases o with
    | none =>
      simp only [Option.some.injEq] at h
      subst h
      rfl
    | some f =>
      by_cases hs : (load_account_fingerprint w == some f) = true
      · simp only [hs, if_true, Option.some.injEq] at h
        subst h
        rfl
      · have hs2 : (load_account_fingerprint w == some f) = false := by
          revert hs
          cases load_account_fingerprint w == some f <;> simp
        simp only [hs2, Bool.false_eq_true, if_false, Option.some.injEq] at h
        subst h
        by_cases h4 : (load_account_fingerprint w).isSome = true <;>
          by_cases hd : has_existing_data w = true <;>
            simp [h4, hd, reset_persisted_data]

theorem resolve_cursor_of_load_empty (rb : Bool) (after : Int) (scope : Pyd)
    (w : World) (hls : load_state w = []) :
    resolve_cursor rb false after scope w = [] := by
  unfold resolve_cursor
  cases rb <;> simp [hls]

theorem resolve_cursor_mismatch (rb : Bool) (after : Int) (scope : Pyd)
    (w : World)
    (hmis : pyToInt (pyGet (load_state w) "after") ≠ some after ∨
      pyEq (pyGet (load_state w) "activity_scope") (.pydict scope) = false) :
    resolve_cursor rb false after scope w = [] := by
  unfold resolve_cursor
  cases rb with
  | false => simp
  | true =>
    simp only [Bool.not_false, Bool.and_true, if_true, Bool.true_and]
    by_cases hempty : (load_state w).isEmpty = true
    · simp [hempty]
    · simp only [hempty, Bool.false_eq_true, if_false]
      cases hai : pyToInt (pyGet (load_state w) "after") with
      | none => simp
      | some a =>
        by_cases ha : (a == after) = true
        · have ha2 : a = after := by simpa using ha
          rcases hmis with hmis | hmis
          · exact absurd (by rw [hai, ha2]) hmis
          · simp [ha, hmis]
        · have ha2 : (a == after) = false := by
            revert ha
            cases a == after <;> simp
          simp [ha2]

theorem sync_engine_cursor_invalidation (fuel : Nat) (config : Pyd)
    (c : Client) (env : Env) (prune_deleted : Bool) (per_page after : Int)
    (scope : Pyd) (recent_days : Int) (resume_backfill : Bool) (w : World)
    (hmis : pyToInt (pyGet (load_state w) "after") ≠ some after ∨
      pyEq (pyGet (load_state w) "activity_scope") (.pydict scope) = false) :
    sync_engine fuel config c env false prune_deleted per_page after scope
        recent_days resume_backfill w =
      sync_engine fuel config c env false prune_deleted per_page after scope
        recent_days resume_backfill { w with backfillState := none } := by
  simp only [sync_engine, Bool.false_eq_true, if_false]
  rw [maybe_reset_backfillState_map config env w none]
  cases hmr : maybe_reset_for_new_account config env w with
  | none => rfl
  | some w1 =>
    simp only [Option.map_some']
    have hbs : w1.backfillState = w.backfillState :=
      maybe_reset_preserves_backfillState config env w w1 hmr
    have hls : load_state w1 = load_state w := by
      unfold load_state
      rw [hbs]
    have h1 : resolve_cursor resume_backfill false after scope w1 = [] := by
      apply resolve_cursor_mismatch
      rw [hls]
      exact hmis
    have h2 : resolve_cursor resume_backfill false after scope
        { w1 with backfillState := none } = [] :=
      resolve_cursor_of_load_empty _ _ _ _ rfl
    rw [h1, h2]

/-- C3: a persisted backfill cursor is honoured only for the exact current
`(after, activity_scope)` pair: if the stored `after` differs from the
configured bound, or the stored `activity_scope` differs (Python `!=`) from
the current scope, the whole (non-dry) run — summary, raw store and persisted
state included — is identical to a run with no cursor file at all, i.e. the
cursor is discarded and the backfill restarts from offset 0, regardless of
any previously persisted `next_offset` or `completed = true`. -/
theorem sync_garmin_cursor_invalidation (fuel : Nat) (config : Pyd)
    (c : Client) (env : Env) (prune_deleted : Bool) (w : World)
    (after : Int) (scope : Pyd)
    (hafter : start_after_ts config env = some after)
    (hscope : activity_scope config = some scope)
    (hmis : pyToInt (pyGet (load_state w) "after") ≠ some after ∨
      pyEq (pyGet (load_state w) "activity_scope") (.pydict scope) = false) :
    sync_garmin fuel config c env false prune_deleted w =
      sync_garmin fuel config c env false prune_deleted
        { w with backfillState := none } := by
  simp only [sync_garmin]
  cases hs : getSectionOr config "sync" with
  | none => rfl
  | some sync_cfg =>
    simp only [hs]
    cases hp : pyToInt (pyGetD sync_cfg "per_page" (.pyint 200)) with
    | none => rfl
    | some per_page =>
      simp only [hp, hafter, hscope]
      cases hr : pyToInt (pyGetD sync_cfg "recent_days" (.pyint 7)) with
      | none => rfl
      | some recent_days =>
        simp only [hr]
        exact sync_engine_cursor_invalidation fuel config c env prune_deleted
          per_page after scope recent_days _ w hmis

def c3client : Client :=
  ⟨some fun _ _ => .ok (.pylist []), none, none, none, none, none⟩

def c3config : Pyd :=
  [("sync", .pydict [("per_page", .pyint 3), ("recent_days", .pyint 0)])]

def c3state : PyVal :=
  .pydict [("after", .pyint 86400), ("next_offset", .pyint 40),
           ("completed", .pybool true),
           ("activity_scope",
            .pydict [("include_all_types", .pybool true),
                     ("exclude_types", .pylist [])])]

def c3world : World := ⟨[], some c3state, none, false⟩

def c3env : Env := ⟨⟨2031, 1, 1, 0, 0, 0⟩⟩

/-- Witness for C3: a cursor persisted for `after = 86400` (with
`completed = true` and a large `next_offset`) is discarded when the current
configuration's bound is `0`: the run equals one with no cursor at all. -/
theorem sync_garmin_cursor_invalidation_witness :
    sync_garmin 10 c3config c3client c3env false false c3world =
      sync_garmin 10 c3config c3client c3env false false
        { c3world with backfillState := none } :=
  sync_garmin_cursor_invalidation 10 c3config c3client c3env false c3world 0
    [("include_all_types", .pybool true), ("exclude_types", .pylist [])]
    rfl rfl (Or.inl (by decide))

def c9goodPayload : Pyd :=
  [("activityId", .pystr "42"), ("startTimeLocal", .pystr "2030-01-01 07:00:00")]

/-- Witness for the amended C9 theorem: a payload with a usable id and start
time yields a record with a non-empty string id. -/
theorem normalize_activity_spec_witness :
    ∃ s, pyLookup "id" (normalize_activity c9goodPayload) = some (.pystr s) ∧
      s ≠ "" :=
  (normalize_activity_spec c9goodPayload).2
    (List.ne_nil_of_length_pos (by decide))
